import Mathlib

/-!
# ThermalBMS: a verification development for `src/thermal_bms.cpp`

The C++ class `ThermalBMS` is embedded as a record of its nine data members and
every member function becomes a pure function on that record.  The two alert
sinks (`alertDriver`, `alertVCU`) are modelled by the list of alerts a call
emits, in emission order; the `LOG:` and `ACTION:` console lines carry no state
and are not modelled.

Temperatures are `float` in the source.  A reading and the recorded temperature
are values of `FloatVal`: not-a-number, an infinity, or a finite number, compared as
`float` compares them (every comparison with NaN is false).  Finite numbers are
exact rationals, so `MAX_SAFE_TEMP_C - 5.0f` is the exact difference.  The stored
current limit only ever holds the constants 0, 100 and 1000 and is a rational.  The
four thresholds are declared in `thermal_bms.h`; they are the finite fields of
`Config`, so every result holds for the thresholds named in it.
-/

namespace ThermalBMS

/-- The enumeration `BmsFaultState` used by `thermal_bms.cpp`. -/
inductive BmsFaultState where
  | NORMAL
  | OVER_TEMPERATURE_CRITICAL
  | UNDER_TEMPERATURE_CHARGE_INHIBIT
  | UNDER_TEMPERATURE_DISCHARGE_INHIBIT
  | UNDER_TEMPERATURE_DISCHARGE_LIMITED
  deriving DecidableEq, Repr

open BmsFaultState

/-- A value of the C++ type `float`: not-a-number, an infinity, or a finite number. -/
inductive FloatVal where
  | nan
  | negInf
  | finite (q : ℚ)
  | posInf
  deriving DecidableEq

/-- The `float` comparison `a < b`: false as soon as one side is NaN. -/
def FloatVal.blt : FloatVal → FloatVal → Bool
  | FloatVal.finite a, FloatVal.finite b => decide (a < b)
  | FloatVal.negInf, FloatVal.finite _ => true
  | FloatVal.negInf, FloatVal.posInf => true
  | FloatVal.finite _, FloatVal.posInf => true
  | _, _ => false

/-- The `float` comparison `a <= b`: false as soon as one side is NaN. -/
def FloatVal.ble : FloatVal → FloatVal → Bool
  | FloatVal.finite a, FloatVal.finite b => decide (a ≤ b)
  | FloatVal.negInf, FloatVal.nan => false
  | FloatVal.negInf, _ => true
  | FloatVal.finite _, FloatVal.posInf => true
  | FloatVal.posInf, FloatVal.posInf => true
  | _, _ => false

instance : LT FloatVal := ⟨fun a b => FloatVal.blt a b = true⟩

instance : LE FloatVal := ⟨fun a b => FloatVal.ble a b = true⟩

instance (a b : FloatVal) : Decidable (a < b) :=
  inferInstanceAs (Decidable (FloatVal.blt a b = true))

instance (a b : FloatVal) : Decidable (a ≤ b) :=
  inferInstanceAs (Decidable (FloatVal.ble a b = true))

/-- A finite threshold or literal read as a `float` value. -/
instance : Coe ℚ FloatVal := ⟨FloatVal.finite⟩

/-- The threshold constants of `thermal_bms.h`, taken as parameters. -/
structure Config where
  MAX_SAFE_TEMP_C : ℚ
  MIN_SAFE_CHARGE_TEMP_C : ℚ
  MIN_SAFE_DISCHARGE_TEMP_C : ℚ
  MIN_LIMITED_DISCHARGE_TEMP_C : ℚ
  deriving DecidableEq

/-- The data members of `class ThermalBMS`. -/
structure State where
  currentBatteryTemperatureC : FloatVal
  faultState : BmsFaultState
  alertMessage : String
  contactorsOpen : Bool
  emergencyCoolingActive : Bool
  chargingInhibited : Bool
  dischargingInhibited : Bool
  dischargeCurrentLimit : ℚ
  manualResetRequired : Bool
  deriving DecidableEq

/-- One call of `alertDriver` or `alertVCU`, with its message. -/
inductive Alert where
  | driver (message : String)
  | vcu (message : String)
  deriving DecidableEq, Repr

/-- The constructor `ThermalBMS::ThermalBMS()`. -/
def new : State :=
  { currentBatteryTemperatureC := FloatVal.finite 25
    faultState := NORMAL
    alertMessage := ""
    contactorsOpen := false
    emergencyCoolingActive := false
    chargingInhibited := false
    dischargingInhibited := false
    dischargeCurrentLimit := 1000
    manualResetRequired := false }

/-- `ThermalBMS::openMainContactors`. -/
def openMainContactors (s : State) : State :=
  { s with contactorsOpen := true, dischargingInhibited := true, chargingInhibited := true }

/-- `ThermalBMS::activateEmergencyCooling`. -/
def activateEmergencyCooling (s : State) : State :=
  { s with emergencyCoolingActive := true }

/-- `ThermalBMS::inhibitCharging`. -/
def inhibitCharging (s : State) : State :=
  { s with chargingInhibited := true }

/-- `ThermalBMS::limitDischargeCurrent`. -/
def limitDischargeCurrent (cfg : Config) (limit : ℚ) (s : State) : State :=
  let s1 := { s with dischargeCurrentLimit := limit }
  if s1.dischargingInhibited = true ∧
      s1.currentBatteryTemperatureC ≥ ↑cfg.MIN_SAFE_DISCHARGE_TEMP_C then
    { s1 with dischargingInhibited := false }
  else s1

/-- `ThermalBMS::inhibitDischarging`. -/
def inhibitDischarging (s : State) : State :=
  { s with dischargingInhibited := true, dischargeCurrentLimit := 0 }

/-- Alert text of the critical over-temperature entry. -/
def msgCritical : String := "CRITICAL: Battery Over-Temperature! Isolating battery."

/-- Alert text of the cold charge inhibit. -/
def msgChargeInhibit : String := "NOTICE: Battery too cold for charging. Charging inhibited."

/-- Alert text of the cold discharge inhibit. -/
def msgDischargeInhibit : String := "WARNING: Battery too cold! Discharging inhibited."

/-- Alert text of the cold discharge limitation. -/
def msgDischargeLimited : String := "INFO: Battery cold. Discharge current limited."

/-- Alert text of a denied manual reset. -/
def msgResetDenied : String := "Manual Reset Denied: Battery temperature still too high."

/-- `ThermalBMS::handleOverTemperature`. -/
def handleOverTemperature (s : State) : State × List Alert :=
  if s.faultState ≠ OVER_TEMPERATURE_CRITICAL then
    let s1 := { s with faultState := OVER_TEMPERATURE_CRITICAL, alertMessage := msgCritical }
    let s2 := openMainContactors s1
    let s3 := activateEmergencyCooling s2
    let s4 := inhibitCharging s3
    let s5 := inhibitDischarging s4
    ({ s5 with manualResetRequired := true },
      [Alert.driver s1.alertMessage, Alert.vcu s1.alertMessage])
  else (s, [])

/-- The charging check of `ThermalBMS::handleUnderTemperature` (REQ_BMS_THERMAL_002a). -/
def handleUnderTemperatureCharge (cfg : Config) (s : State) : State × List Alert :=
  if s.currentBatteryTemperatureC < ↑cfg.MIN_SAFE_CHARGE_TEMP_C then
    if s.chargingInhibited = false then
      if s.faultState ≠ OVER_TEMPERATURE_CRITICAL then
        let s1 := { s with faultState := UNDER_TEMPERATURE_CHARGE_INHIBIT,
                           alertMessage := msgChargeInhibit }
        (inhibitCharging s1, [Alert.vcu s1.alertMessage])
      else (s, [])
    else (s, [])
  else (s, [])

/-- The discharging check of `ThermalBMS::handleUnderTemperature` (REQ_BMS_THERMAL_002b). -/
def handleUnderTemperatureDischarge (cfg : Config) (s : State) : State × List Alert :=
  if s.currentBatteryTemperatureC < ↑cfg.MIN_SAFE_DISCHARGE_TEMP_C then
    if s.dischargingInhibited = false ∨ s.faultState ≠ UNDER_TEMPERATURE_DISCHARGE_INHIBIT then
      if s.faultState ≠ OVER_TEMPERATURE_CRITICAL then
        let s1 := { s with faultState := UNDER_TEMPERATURE_DISCHARGE_INHIBIT,
                           alertMessage := msgDischargeInhibit }
        (inhibitDischarging s1, [Alert.driver s1.alertMessage, Alert.vcu s1.alertMessage])
      else (s, [])
    else (s, [])
  else if s.currentBatteryTemperatureC < ↑cfg.MIN_LIMITED_DISCHARGE_TEMP_C then
    if s.faultState ≠ UNDER_TEMPERATURE_DISCHARGE_LIMITED ∧
        s.faultState ≠ UNDER_TEMPERATURE_DISCHARGE_INHIBIT then
      if s.faultState ≠ OVER_TEMPERATURE_CRITICAL then
        let s1 := { s with faultState := UNDER_TEMPERATURE_DISCHARGE_LIMITED,
                           alertMessage := msgDischargeLimited }
        let s2 := limitDischargeCurrent cfg 100 s1
        let s3 :=
          if s2.dischargingInhibited = true ∧
              s2.currentBatteryTemperatureC ≥ ↑cfg.MIN_SAFE_DISCHARGE_TEMP_C then
            { s2 with dischargingInhibited := false }
          else s2
        (s3, [Alert.driver s1.alertMessage, Alert.vcu s1.alertMessage])
      else (s, [])
    else (s, [])
  else (s, [])

/-- `ThermalBMS::handleUnderTemperature`: the charging check, then the discharging check. -/
def handleUnderTemperature (cfg : Config) (s : State) : State × List Alert :=
  let r1 := handleUnderTemperatureCharge cfg s
  let r2 := handleUnderTemperatureDischarge cfg r1.1
  (r2.1, r1.2 ++ r2.2)

/-- `ThermalBMS::resetToNormalState`. -/
def resetToNormalState (s : State) : State × List Alert :=
  if s.manualResetRequired = true then (s, [])
  else
    let wasFaulted : Bool := decide (s.faultState ≠ NORMAL)
    let s1 := { s with faultState := NORMAL, alertMessage := "System Normal",
                       chargingInhibited := false, dischargingInhibited := false,
                       dischargeCurrentLimit := 1000 }
    if wasFaulted = true then
      (s1, [Alert.driver "Battery temperature normal. System OK.",
            Alert.vcu "BMS: Thermal conditions nominal."])
    else (s1, [])

/-- `ThermalBMS::monitorTemperature`. -/
def monitorTemperature (cfg : Config) (currentTemperatureCelsius : FloatVal) (s : State) :
    State × List Alert :=
  let s1 := { s with currentBatteryTemperatureC := currentTemperatureCelsius }
  if s1.currentBatteryTemperatureC > ↑cfg.MAX_SAFE_TEMP_C then
    handleOverTemperature s1
  else if s1.currentBatteryTemperatureC < ↑cfg.MIN_SAFE_CHARGE_TEMP_C ∨
      s1.currentBatteryTemperatureC < ↑cfg.MIN_LIMITED_DISCHARGE_TEMP_C then
    if s1.faultState ≠ OVER_TEMPERATURE_CRITICAL then handleUnderTemperature cfg s1
    else (s1, [])
  else
    if s1.faultState ≠ OVER_TEMPERATURE_CRITICAL ∨ s1.manualResetRequired = false then
      resetToNormalState s1
    else (s1, [])

/-- `ThermalBMS::getFaultState`. -/
def getFaultState (s : State) : BmsFaultState := s.faultState

/-- `ThermalBMS::getAlertMessage`. -/
def getAlertMessage (s : State) : String := s.alertMessage

/-- `ThermalBMS::canCharge`. -/
def canCharge (cfg : Config) (s : State) : Bool :=
  if s.faultState = OVER_TEMPERATURE_CRITICAL then false
  else if s.currentBatteryTemperatureC < ↑cfg.MIN_SAFE_CHARGE_TEMP_C then false
  else !s.chargingInhibited

/-- `ThermalBMS::canDischarge`. -/
def canDischarge (cfg : Config) (s : State) : Bool :=
  if s.faultState = OVER_TEMPERATURE_CRITICAL then false
  else if s.currentBatteryTemperatureC < ↑cfg.MIN_SAFE_DISCHARGE_TEMP_C then false
  else !s.dischargingInhibited

/-- `ThermalBMS::getAllowedDischargeCurrentLimit`. -/
def getAllowedDischargeCurrentLimit (cfg : Config) (s : State) : ℚ :=
  if s.faultState = OVER_TEMPERATURE_CRITICAL ∨ s.dischargingInhibited = true ∨
      s.currentBatteryTemperatureC < ↑cfg.MIN_SAFE_DISCHARGE_TEMP_C then 0
  else if s.faultState = UNDER_TEMPERATURE_DISCHARGE_LIMITED ∨
      s.currentBatteryTemperatureC < ↑cfg.MIN_LIMITED_DISCHARGE_TEMP_C then
    s.dischargeCurrentLimit
  else 1000

/-- `ThermalBMS::performManualReset`. -/
def performManualReset (cfg : Config) (s : State) : State × List Alert :=
  if s.faultState = OVER_TEMPERATURE_CRITICAL then
    if s.currentBatteryTemperatureC ≤ ↑(cfg.MAX_SAFE_TEMP_C - 5) then
      let s1 := { s with manualResetRequired := false, contactorsOpen := false }
      let r2 := resetToNormalState s1
      let r3 := monitorTemperature cfg r2.1.currentBatteryTemperatureC r2.1
      (r3.1, r2.2 ++ r3.2)
    else
      let s1 := { s with alertMessage := msgResetDenied }
      (s1, [Alert.driver s1.alertMessage])
  else (s, [])

/-- `ThermalBMS::allowCharging`. -/
def allowCharging (cfg : Config) (s : State) : State × List Alert :=
  if s.currentBatteryTemperatureC ≥ ↑cfg.MIN_SAFE_CHARGE_TEMP_C ∧
      s.faultState ≠ OVER_TEMPERATURE_CRITICAL then
    let s1 := { s with chargingInhibited := false }
    if s1.faultState = UNDER_TEMPERATURE_CHARGE_INHIBIT then
      let r2 := resetToNormalState s1
      let r3 := monitorTemperature cfg r2.1.currentBatteryTemperatureC r2.1
      (r3.1, r2.2 ++ r3.2)
    else (s1, [])
  else (s, [])

/-- `ThermalBMS::allowFullDischarge`. -/
def allowFullDischarge (cfg : Config) (s : State) : State × List Alert :=
  if s.currentBatteryTemperatureC ≥ ↑cfg.MIN_LIMITED_DISCHARGE_TEMP_C ∧
      s.faultState ≠ OVER_TEMPERATURE_CRITICAL then
    let s1 := { s with dischargingInhibited := false, dischargeCurrentLimit := 1000 }
    if s1.faultState = UNDER_TEMPERATURE_DISCHARGE_LIMITED ∨
        s1.faultState = UNDER_TEMPERATURE_DISCHARGE_INHIBIT then
      let r2 := resetToNormalState s1
      let r3 := monitorTemperature cfg r2.1.currentBatteryTemperatureC r2.1
      (r3.1, r2.2 ++ r3.2)
    else (s1, [])
  else (s, [])

/-- The four mutating operations of the public interface, as call descriptors. -/
inductive Op where
  | monitor (currentTemperatureCelsius : FloatVal)
  | reset
  | allowCharge
  | allowDischarge
  deriving DecidableEq

/-- One public call on the supervisor. -/
def step (cfg : Config) (op : Op) (s : State) : State × List Alert :=
  match op with
  | Op.monitor t => monitorTemperature cfg t s
  | Op.reset => performManualReset cfg s
  | Op.allowCharge => allowCharging cfg s
  | Op.allowDischarge => allowFullDischarge cfg s

/-- The state after a sequence of public calls, first call first. -/
def run (cfg : Config) : List Op → State → State
  | [], s => s
  | op :: ops, s => run cfg ops (step cfg op s).1

/-- States reachable from the constructor's state by public calls. -/
inductive Reachable (cfg : Config) : State → Prop where
  | init : Reachable cfg new
  | call (op : Op) (s : State) : Reachable cfg s → Reachable cfg (step cfg op s).1

/-- Thresholds quoted in the requirement comments of the source (60, 0, -20), with the
limited-discharge threshold 0 of the three-band example in the specification. -/
def docCfg : Config :=
  { MAX_SAFE_TEMP_C := 60
    MIN_SAFE_CHARGE_TEMP_C := 0
    MIN_SAFE_DISCHARGE_TEMP_C := -20
    MIN_LIMITED_DISCHARGE_TEMP_C := 0 }

/-- A strictly ordered configuration: -20 < 0 < 5 < 60 - 5. -/
def orderedCfg : Config :=
  { MAX_SAFE_TEMP_C := 60
    MIN_SAFE_CHARGE_TEMP_C := 5
    MIN_SAFE_DISCHARGE_TEMP_C := -20
    MIN_LIMITED_DISCHARGE_TEMP_C := 0 }

/-- The facts about the critical latch that every public call preserves: the critical
state and the reset latch go together, the critical state keeps the pack isolated, cooled
and inhibited, and an inhibited discharge has a zero stored limit. -/
def LatchInv (s : State) : Prop :=
  (s.faultState = OVER_TEMPERATURE_CRITICAL ↔ s.manualResetRequired = true) ∧
  (s.faultState = OVER_TEMPERATURE_CRITICAL →
    s.contactorsOpen = true ∧ s.emergencyCoolingActive = true ∧
    s.chargingInhibited = true ∧ s.dischargingInhibited = true) ∧
  (s.dischargingInhibited = true → s.dischargeCurrentLimit = 0)

/-- The part of the state that the under-temperature and normal evaluations never touch,
together with the fact that they never enter the critical state. -/
def Frame (s s' : State) : Prop :=
  s'.manualResetRequired = s.manualResetRequired ∧ s'.contactorsOpen = s.contactorsOpen ∧
  s'.emergencyCoolingActive = s.emergencyCoolingActive ∧
  s'.currentBatteryTemperatureC = s.currentBatteryTemperatureC ∧
  (s.faultState ≠ OVER_TEMPERATURE_CRITICAL → s'.faultState ≠ OVER_TEMPERATURE_CRITICAL)

/-- The state `performManualReset` hands to its final `monitorTemperature` call once the
reset is authorised: latch cleared, contactors closed, `resetToNormalState` applied. -/
def afterAuthorizedReset (s : State) : State :=
  { s with manualResetRequired := false, contactorsOpen := false, faultState := NORMAL,
           alertMessage := "System Normal", chargingInhibited := false,
           dischargingInhibited := false, dischargeCurrentLimit := 1000 }

/-- The latched critical condition: critical fault state, reset latch set, contactors
open and both inhibit flags set. -/
def Latched (s : State) : Prop :=
  s.faultState = OVER_TEMPERATURE_CRITICAL ∧ s.manualResetRequired = true ∧
  s.contactorsOpen = true ∧ s.chargingInhibited = true ∧ s.dischargingInhibited = true

/-- The guard under which `performManualReset` takes its authorised branch. -/
def resetAuthorized (cfg : Config) (s : State) : Bool :=
  decide (s.faultState = OVER_TEMPERATURE_CRITICAL ∧
    s.currentBatteryTemperatureC ≤ ↑(cfg.MAX_SAFE_TEMP_C - 5))

/-- No `performManualReset` call of the sequence, started in `s`, is authorised. -/
def noSuccessfulReset (cfg : Config) : List Op → State → Bool
  | [], _ => true
  | op :: ops, s =>
    (match op with
      | Op.reset => !resetAuthorized cfg s
      | _ => true) && noSuccessfulReset cfg ops (step cfg op s).1

/-- The limited state stores the limited current, and the discharge-inhibit state has the
discharge inhibit flag set. -/
def ColdInv (s : State) : Prop :=
  (s.faultState = UNDER_TEMPERATURE_DISCHARGE_LIMITED → s.dischargeCurrentLimit = 100) ∧
  (s.faultState = UNDER_TEMPERATURE_DISCHARGE_INHIBIT → s.dischargingInhibited = true)

/-- A recorded temperature above the maximum only occurs in the critical state, and below
the limited-discharge threshold an uninhibited non-critical state stores the limited
current. -/
def BandInv (cfg : Config) (s : State) : Prop :=
  ColdInv s ∧
  (s.currentBatteryTemperatureC > ↑cfg.MAX_SAFE_TEMP_C →
    s.faultState = OVER_TEMPERATURE_CRITICAL) ∧
  (s.faultState ≠ OVER_TEMPERATURE_CRITICAL →
    s.currentBatteryTemperatureC < ↑cfg.MIN_LIMITED_DISCHARGE_TEMP_C →
    s.dischargingInhibited = false → s.dischargeCurrentLimit = 100)

/-- Alerts of the recovery to `NORMAL`, in emission order. -/
def recoveryAlerts : List Alert :=
  [Alert.driver "Battery temperature normal. System OK.",
   Alert.vcu "BMS: Thermal conditions nominal."]

/-- Flag facts every public call preserves: the charge-inhibit label carries the charge
inhibit flag, the normal label carries no inhibit flag, an uninhibited discharge stores
one of the two positive limits, and open contactors only occur in the critical state. -/
def FlagInv (s : State) : Prop :=
  (s.faultState = UNDER_TEMPERATURE_CHARGE_INHIBIT → s.chargingInhibited = true) ∧
  (s.faultState = NORMAL → s.chargingInhibited = false ∧ s.dischargingInhibited = false) ∧
  (s.dischargingInhibited = false →
    s.dischargeCurrentLimit = 100 ∨ s.dischargeCurrentLimit = 1000) ∧
  (s.contactorsOpen = true → s.faultState = OVER_TEMPERATURE_CRITICAL)

/-- The three state/flag implications of the data model: the critical state has the
contactors open, the critical and charge-inhibit states have charging inhibited, the
critical and discharge-inhibit states have discharging inhibited. -/
def StateFlagInvariants (s : State) : Prop :=
  (s.faultState = OVER_TEMPERATURE_CRITICAL → s.contactorsOpen = true) ∧
  (s.faultState = OVER_TEMPERATURE_CRITICAL ∨ s.faultState = UNDER_TEMPERATURE_CHARGE_INHIBIT →
    s.chargingInhibited = true) ∧
  (s.faultState = OVER_TEMPERATURE_CRITICAL ∨
      s.faultState = UNDER_TEMPERATURE_DISCHARGE_INHIBIT →
    s.dischargingInhibited = true)

/-- Below the limited-discharge threshold an uninhibited non-critical state stores the
limited current. -/
def LimitedBandInv (cfg : Config) (s : State) : Prop :=
  s.faultState ≠ OVER_TEMPERATURE_CRITICAL →
  s.currentBatteryTemperatureC < ↑cfg.MIN_LIMITED_DISCHARGE_TEMP_C →
  s.dischargingInhibited = false → s.dischargeCurrentLimit = 100

/-- A strictly ordered configuration whose limited-discharge threshold lies above the
constructor's temperature 25: -20 < 30 < 40 < 60. -/
def lateLimitedCfg : Config :=
  { MAX_SAFE_TEMP_C := 60
    MIN_SAFE_CHARGE_TEMP_C := 40
    MIN_SAFE_DISCHARGE_TEMP_C := -20
    MIN_LIMITED_DISCHARGE_TEMP_C := 30 }

/-- Below the charge threshold a non-critical state has charging inhibited. -/
def ChargeBandInv (cfg : Config) (s : State) : Prop :=
  s.faultState ≠ OVER_TEMPERATURE_CRITICAL →
  s.currentBatteryTemperatureC < ↑cfg.MIN_SAFE_CHARGE_TEMP_C → s.chargingInhibited = true

/-- A strictly ordered configuration whose charge threshold lies above the constructor's
temperature 25: -20 < 0 < 30 < 60. -/
def lateChargeCfg : Config :=
  { MAX_SAFE_TEMP_C := 60
    MIN_SAFE_CHARGE_TEMP_C := 30
    MIN_SAFE_DISCHARGE_TEMP_C := -20
    MIN_LIMITED_DISCHARGE_TEMP_C := 0 }

/-- Outside the critical state a recorded temperature at or above the charge threshold
only occurs in the normal state. -/
def NominalInv (cfg : Config) (s : State) : Prop :=
  s.faultState ≠ OVER_TEMPERATURE_CRITICAL →
  ↑cfg.MIN_SAFE_CHARGE_TEMP_C ≤ s.currentBatteryTemperatureC → s.faultState = NORMAL

/-- The state of a fresh supervisor after its first over-temperature reading. -/
def criticalAt (t : FloatVal) : State :=
  { currentBatteryTemperatureC := t
    faultState := OVER_TEMPERATURE_CRITICAL
    alertMessage := msgCritical
    contactorsOpen := true
    emergencyCoolingActive := true
    chargingInhibited := true
    dischargingInhibited := true
    dischargeCurrentLimit := 0
    manualResetRequired := true }

/-- The normal state after an authorised reset of `criticalAt`, at temperature `t`. -/
def recoveredAt (t : FloatVal) : State :=
  { currentBatteryTemperatureC := t
    faultState := NORMAL
    alertMessage := "System Normal"
    contactorsOpen := false
    emergencyCoolingActive := true
    chargingInhibited := false
    dischargingInhibited := false
    dischargeCurrentLimit := 1000
    manualResetRequired := false }

/-! # Theorems -/

/-! ## Comparing a `float` value with finite thresholds -/

theorem FloatVal.lt_def (a b : FloatVal) : a < b ↔ FloatVal.blt a b = true := Iff.rfl

theorem FloatVal.le_def (a b : FloatVal) : a ≤ b ↔ FloatVal.ble a b = true := Iff.rfl

theorem FloatVal.finite_lt_finite (a b : ℚ) :
    FloatVal.finite a < FloatVal.finite b ↔ a < b := by
  simp [FloatVal.lt_def, FloatVal.blt]

theorem FloatVal.finite_le_finite (a b : ℚ) :
    FloatVal.finite a ≤ FloatVal.finite b ↔ a ≤ b := by
  simp [FloatVal.le_def, FloatVal.ble]

theorem FloatVal.not_lt_of_ge {x : FloatVal} {a : ℚ} (h : FloatVal.finite a ≤ x) :
    ¬ x < FloatVal.finite a := by
  cases x <;> simp [FloatVal.lt_def, FloatVal.le_def, FloatVal.blt, FloatVal.ble] at h ⊢
  linarith

theorem FloatVal.not_ge_of_lt {x : FloatVal} {a : ℚ} (h : x < FloatVal.finite a) :
    ¬ FloatVal.finite a ≤ x := by
  cases x <;> simp [FloatVal.lt_def, FloatVal.le_def, FloatVal.blt, FloatVal.ble] at h ⊢
  linarith

theorem FloatVal.not_gt_of_le {x : FloatVal} {a : ℚ} (h : x ≤ FloatVal.finite a) :
    ¬ x > FloatVal.finite a := by
  cases x <;> simp [FloatVal.lt_def, FloatVal.le_def, FloatVal.blt, FloatVal.ble] at h ⊢
  linarith

theorem FloatVal.not_le_of_gt {x : FloatVal} {a : ℚ} (h : x > FloatVal.finite a) :
    ¬ x ≤ FloatVal.finite a := by
  cases x <;> simp [FloatVal.lt_def, FloatVal.le_def, FloatVal.blt, FloatVal.ble] at h ⊢
  linarith

theorem FloatVal.lt_of_lt_of_le {x : FloatVal} {a b : ℚ} (h : x < FloatVal.finite a)
    (hab : a ≤ b) : x < FloatVal.finite b := by
  cases x <;> simp [FloatVal.lt_def, FloatVal.blt] at h ⊢
  linarith

theorem FloatVal.le_of_le_of_le {x : FloatVal} {a b : ℚ} (h : x ≤ FloatVal.finite a)
    (hab : a ≤ b) : x ≤ FloatVal.finite b := by
  cases x <;> simp [FloatVal.le_def, FloatVal.ble] at h ⊢
  linarith

theorem FloatVal.ge_of_ge_of_le {x : FloatVal} {a b : ℚ} (h : FloatVal.finite a ≤ x)
    (hba : b ≤ a) : FloatVal.finite b ≤ x := by
  cases x <;> simp [FloatVal.le_def, FloatVal.ble] at h ⊢
  linarith

/-- A value that is not below `a` and yet below some `b` is a number, so it is at least
`a`; for NaN the second hypothesis fails. -/
theorem FloatVal.ge_of_not_lt_of_lt {x : FloatVal} {a b : ℚ}
    (h : ¬ x < FloatVal.finite a) (h2 : x < FloatVal.finite b) : FloatVal.finite a ≤ x := by
  cases x <;> simp [FloatVal.lt_def, FloatVal.le_def, FloatVal.blt, FloatVal.ble] at h h2 ⊢
  linarith

theorem FloatVal.ge_of_not_lt {x : FloatVal} {a : ℚ} (hx : x ≠ FloatVal.nan)
    (h : ¬ x < FloatVal.finite a) : FloatVal.finite a ≤ x := by
  cases x <;> simp [FloatVal.lt_def, FloatVal.le_def, FloatVal.blt, FloatVal.ble] at hx h ⊢
  linarith

theorem FloatVal.le_of_not_gt {x : FloatVal} {a : ℚ} (hx : x ≠ FloatVal.nan)
    (h : ¬ x > FloatVal.finite a) : x ≤ FloatVal.finite a := by
  cases x <;> simp [FloatVal.lt_def, FloatVal.le_def, FloatVal.blt, FloatVal.ble] at hx h ⊢
  linarith

theorem FloatVal.lt_of_gt_of_le {x : FloatVal} {a b : ℚ}
    (h : FloatVal.finite a < x) (h2 : x ≤ FloatVal.finite b) : a < b := by
  cases x <;> simp [FloatVal.lt_def, FloatVal.le_def, FloatVal.blt, FloatVal.ble] at h h2 ⊢
  linarith

theorem FloatVal.lt_of_gt_of_lt {x : FloatVal} {a b : ℚ}
    (h : FloatVal.finite a < x) (h2 : x < FloatVal.finite b) : a < b := by
  cases x <;> simp [FloatVal.lt_def, FloatVal.blt] at h h2 ⊢
  linarith

/-! ## The latch invariant -/

theorem resetToNormalState_fst (s : State) :
    (resetToNormalState s).1 =
      if s.manualResetRequired = true then s
      else { s with faultState := NORMAL, alertMessage := "System Normal",
                    chargingInhibited := false, dischargingInhibited := false,
                    dischargeCurrentLimit := 1000 } := by
  unfold resetToNormalState
  simp only []
  split_ifs <;> rfl

theorem latchInv_handleOverTemperature (s : State) (h : LatchInv s) :
    LatchInv (handleOverTemperature s).1 := by
  obtain ⟨t0, fs, msg, co, ec, ci, di, lim, mrr⟩ := s
  cases fs <;>
    simp [LatchInv, handleOverTemperature, openMainContactors, activateEmergencyCooling,
      inhibitCharging, inhibitDischarging] at h ⊢
  simp_all

theorem latchInv_handleUnderTemperatureCharge (cfg : Config) (s : State) (h : LatchInv s) :
    LatchInv (handleUnderTemperatureCharge cfg s).1 := by
  obtain ⟨t0, fs, msg, co, ec, ci, di, lim, mrr⟩ := s
  cases fs <;>
    simp [LatchInv, handleUnderTemperatureCharge, inhibitCharging] at h ⊢ <;>
    (try split_ifs) <;> simp_all

theorem latchInv_handleUnderTemperatureDischarge (cfg : Config) (s : State) (h : LatchInv s) :
    LatchInv (handleUnderTemperatureDischarge cfg s).1 := by
  obtain ⟨t0, fs, msg, co, ec, ci, di, lim, mrr⟩ := s
  have key := @FloatVal.ge_of_not_lt_of_lt t0 cfg.MIN_SAFE_DISCHARGE_TEMP_C
    cfg.MIN_LIMITED_DISCHARGE_TEMP_C
  cases fs <;>
    simp [LatchInv, handleUnderTemperatureDischarge, inhibitDischarging,
      limitDischargeCurrent] at h ⊢ <;>
    (try split_ifs) <;> simp_all

theorem latchInv_resetToNormalState (s : State) (h : LatchInv s) :
    LatchInv (resetToNormalState s).1 := by
  obtain ⟨t0, fs, msg, co, ec, ci, di, lim, mrr⟩ := s
  cases fs <;>
    simp [LatchInv, resetToNormalState] at h ⊢ <;>
    (try split_ifs) <;> simp_all

theorem latchInv_monitorTemperature (cfg : Config) (t : FloatVal) (s : State) (h : LatchInv s) :
    LatchInv (monitorTemperature cfg t s).1 := by
  have h1 : LatchInv { s with currentBatteryTemperatureC := t } := h
  unfold monitorTemperature
  simp only []
  split_ifs
  · exact latchInv_handleOverTemperature _ h1
  · exact latchInv_handleUnderTemperatureDischarge _ _
      (latchInv_handleUnderTemperatureCharge _ _ h1)
  · exact h1
  · exact latchInv_resetToNormalState _ h1
  · exact h1

theorem latchInv_performManualReset (cfg : Config) (s : State) (h : LatchInv s) :
    LatchInv (performManualReset cfg s).1 := by
  unfold performManualReset
  simp only []
  split_ifs
  · apply latchInv_monitorTemperature
    obtain ⟨t0, fs, msg, co, ec, ci, di, lim, mrr⟩ := s
    simp [LatchInv, resetToNormalState_fst]
  · exact h
  · exact h

theorem latchInv_allowCharging (cfg : Config) (s : State) (h : LatchInv s) :
    LatchInv (allowCharging cfg s).1 := by
  unfold allowCharging
  simp only []
  split_ifs with h1 h2
  · apply latchInv_monitorTemperature
    apply latchInv_resetToNormalState
    obtain ⟨t0, fs, msg, co, ec, ci, di, lim, mrr⟩ := s
    simp_all [LatchInv]
  · obtain ⟨t0, fs, msg, co, ec, ci, di, lim, mrr⟩ := s
    simp_all [LatchInv]
  · exact h

theorem latchInv_allowFullDischarge (cfg : Config) (s : State) (h : LatchInv s) :
    LatchInv (allowFullDischarge cfg s).1 := by
  unfold allowFullDischarge
  simp only []
  split_ifs with h1 h2
  · apply latchInv_monitorTemperature
    apply latchInv_resetToNormalState
    obtain ⟨t0, fs, msg, co, ec, ci, di, lim, mrr⟩ := s
    simp_all [LatchInv]
  · obtain ⟨t0, fs, msg, co, ec, ci, di, lim, mrr⟩ := s
    simp_all [LatchInv]
  · exact h

theorem latchInv_step (cfg : Config) (op : Op) (s : State) (h : LatchInv s) :
    LatchInv (step cfg op s).1 := by
  cases op
  · exact latchInv_monitorTemperature cfg _ s h
  · exact latchInv_performManualReset cfg s h
  · exact latchInv_allowCharging cfg s h
  · exact latchInv_allowFullDischarge cfg s h

theorem latchInv_of_reachable (cfg : Config) (s : State) (h : Reachable cfg s) :
    LatchInv s := by
  induction h with
  | init => simp [LatchInv, new]
  | call op s _ ih => exact latchInv_step cfg op s ih

/-! ## What a monitoring call leaves alone -/

theorem Frame.refl (s : State) : Frame s s := by
  simp [Frame]

theorem Frame.trans {a b c : State} (h1 : Frame a b) (h2 : Frame b c) : Frame a c := by
  obtain ⟨h11, h12, h13, h14, h15⟩ := h1
  obtain ⟨h21, h22, h23, h24, h25⟩ := h2
  exact ⟨h21.trans h11, h22.trans h12, h23.trans h13, h24.trans h14, fun h => h25 (h15 h)⟩

theorem frame_handleUnderTemperatureCharge (cfg : Config) (s : State) :
    Frame s (handleUnderTemperatureCharge cfg s).1 := by
  unfold handleUnderTemperatureCharge
  simp only []
  split_ifs <;> simp [Frame, inhibitCharging]

theorem frame_handleUnderTemperatureDischarge (cfg : Config) (s : State) :
    Frame s (handleUnderTemperatureDischarge cfg s).1 := by
  unfold handleUnderTemperatureDischarge limitDischargeCurrent
  simp only []
  split_ifs <;> simp [Frame, inhibitDischarging]

theorem frame_handleUnderTemperature (cfg : Config) (s : State) :
    Frame s (handleUnderTemperature cfg s).1 :=
  (frame_handleUnderTemperatureCharge cfg s).trans
    (frame_handleUnderTemperatureDischarge cfg _)

theorem frame_resetToNormalState (s : State) : Frame s (resetToNormalState s).1 := by
  rw [resetToNormalState_fst]
  split_ifs <;> simp [Frame]

theorem monitorTemperature_of_gt (cfg : Config) (t : FloatVal) (s : State)
    (ht : t > ↑cfg.MAX_SAFE_TEMP_C) :
    monitorTemperature cfg t s =
      handleOverTemperature { s with currentBatteryTemperatureC := t } := by
  unfold monitorTemperature
  simp only []
  rw [if_pos ht]

theorem frame_monitorTemperature (cfg : Config) (t : FloatVal) (s : State)
    (ht : ¬ t > ↑cfg.MAX_SAFE_TEMP_C) :
    Frame { s with currentBatteryTemperatureC := t } (monitorTemperature cfg t s).1 := by
  unfold monitorTemperature
  simp only []
  rw [if_neg ht]
  split_ifs
  · exact frame_handleUnderTemperature cfg _
  · exact Frame.refl _
  · exact frame_resetToNormalState _
  · exact Frame.refl _

theorem handleOverTemperature_faultState (s : State) :
    (handleOverTemperature s).1.faultState = OVER_TEMPERATURE_CRITICAL := by
  unfold handleOverTemperature
  simp only []
  split_ifs with h
  · rfl
  · simpa using h

theorem monitorTemperature_of_critical (cfg : Config) (t : FloatVal) (s : State)
    (hc : s.faultState = OVER_TEMPERATURE_CRITICAL) (hm : s.manualResetRequired = true) :
    monitorTemperature cfg t s = ({ s with currentBatteryTemperatureC := t }, []) := by
  unfold monitorTemperature handleOverTemperature
  simp [hc, hm]

theorem performManualReset_authorized (cfg : Config) (s : State)
    (hc : s.faultState = OVER_TEMPERATURE_CRITICAL)
    (ht : s.currentBatteryTemperatureC ≤ ↑(cfg.MAX_SAFE_TEMP_C - 5)) :
    (performManualReset cfg s).1 =
      (monitorTemperature cfg s.currentBatteryTemperatureC (afterAuthorizedReset s)).1 := by
  unfold performManualReset
  simp only []
  rw [if_pos hc, if_pos ht]
  simp only [resetToNormalState_fst]
  rfl

theorem performManualReset_denied (cfg : Config) (s : State)
    (hc : s.faultState = OVER_TEMPERATURE_CRITICAL)
    (ht : ¬ s.currentBatteryTemperatureC ≤ ↑(cfg.MAX_SAFE_TEMP_C - 5)) :
    performManualReset cfg s =
      ({ s with alertMessage := msgResetDenied }, [Alert.driver msgResetDenied]) := by
  unfold performManualReset
  simp only []
  rw [if_pos hc, if_neg ht]

theorem allowCharging_of_critical (cfg : Config) (s : State)
    (hc : s.faultState = OVER_TEMPERATURE_CRITICAL) : allowCharging cfg s = (s, []) := by
  unfold allowCharging
  simp [hc]

theorem allowFullDischarge_of_critical (cfg : Config) (s : State)
    (hc : s.faultState = OVER_TEMPERATURE_CRITICAL) : allowFullDischarge cfg s = (s, []) := by
  unfold allowFullDischarge
  simp [hc]

theorem latched_of_latchInv (s : State) (h : LatchInv s)
    (hc : s.faultState = OVER_TEMPERATURE_CRITICAL) : Latched s :=
  ⟨hc, h.1.1 hc, (h.2.1 hc).1, (h.2.1 hc).2.2.1, (h.2.1 hc).2.2.2⟩

theorem step_critical (cfg : Config) (op : Op) (s : State) (h : LatchInv s)
    (hc : s.faultState = OVER_TEMPERATURE_CRITICAL)
    (hop : op = Op.reset → resetAuthorized cfg s = false) :
    (step cfg op s).1.faultState = OVER_TEMPERATURE_CRITICAL := by
  cases op with
  | monitor t =>
    simp only [step]
    rw [monitorTemperature_of_critical cfg t s hc (h.1.1 hc)]
    exact hc
  | reset =>
    have hr := hop rfl
    have ht : ¬ s.currentBatteryTemperatureC ≤ ↑(cfg.MAX_SAFE_TEMP_C - 5) := by
      intro hle
      simp [resetAuthorized, hc, hle] at hr
    simp only [step]
    rw [performManualReset_denied cfg s hc ht]
    exact hc
  | allowCharge =>
    simp only [step]
    rw [allowCharging_of_critical cfg s hc]
    exact hc
  | allowDischarge =>
    simp only [step]
    rw [allowFullDischarge_of_critical cfg s hc]
    exact hc

theorem run_critical (cfg : Config) (ops : List Op) :
    ∀ s : State, LatchInv s → s.faultState = OVER_TEMPERATURE_CRITICAL →
      noSuccessfulReset cfg ops s = true →
      (run cfg ops s).faultState = OVER_TEMPERATURE_CRITICAL := by
  induction ops with
  | nil => intro s _ hc _; exact hc
  | cons op ops ih =>
    intro s h hc hn
    simp only [noSuccessfulReset, Bool.and_eq_true] at hn
    simp only [run]
    apply ih _ (latchInv_step cfg op s h) _ hn.2
    apply step_critical cfg op s h hc
    intro hop
    subst hop
    simpa using hn.1

/-- C1: for every reachable state and every reading above `MAX_SAFE_TEMP_C`, after
`monitorTemperature` the fault state is `OVER_TEMPERATURE_CRITICAL`, charging and
discharging are refused, the allowed discharge current is 0, the contactors are open,
emergency cooling is active and a manual reset is required. -/
theorem C1_over_temperature_dominates (cfg : Config) (s : State) (hs : Reachable cfg s)
    (t : FloatVal) (ht : t > ↑cfg.MAX_SAFE_TEMP_C) :
    getFaultState (monitorTemperature cfg t s).1 = OVER_TEMPERATURE_CRITICAL ∧
    canCharge cfg (monitorTemperature cfg t s).1 = false ∧
    canDischarge cfg (monitorTemperature cfg t s).1 = false ∧
    getAllowedDischargeCurrentLimit cfg (monitorTemperature cfg t s).1 = 0 ∧
    (monitorTemperature cfg t s).1.contactorsOpen = true ∧
    (monitorTemperature cfg t s).1.emergencyCoolingActive = true ∧
    (monitorTemperature cfg t s).1.manualResetRequired = true := by
  have hI := latchInv_monitorTemperature cfg t s (latchInv_of_reachable cfg s hs)
  have hc : (monitorTemperature cfg t s).1.faultState = OVER_TEMPERATURE_CRITICAL := by
    rw [monitorTemperature_of_gt cfg t s ht]
    exact handleOverTemperature_faultState _
  refine ⟨hc, ?_, ?_, ?_, (hI.2.1 hc).1, (hI.2.1 hc).2.1, hI.1.1 hc⟩
  · simp [canCharge, hc]
  · simp [canDischarge, hc]
  · simp [getAllowedDischargeCurrentLimit, hc]

/-- C1 at a concrete input: the documented thresholds, a fresh supervisor, reading 65. -/
theorem C1_over_temperature_dominates_witness :
    getFaultState (monitorTemperature docCfg (.finite 65) new).1 = OVER_TEMPERATURE_CRITICAL ∧
    canCharge docCfg (monitorTemperature docCfg (.finite 65) new).1 = false ∧
    canDischarge docCfg (monitorTemperature docCfg (.finite 65) new).1 = false ∧
    getAllowedDischargeCurrentLimit docCfg (monitorTemperature docCfg (.finite 65) new).1 = 0 ∧
    (monitorTemperature docCfg (.finite 65) new).1.contactorsOpen = true ∧
    (monitorTemperature docCfg (.finite 65) new).1.emergencyCoolingActive = true ∧
    (monitorTemperature docCfg (.finite 65) new).1.manualResetRequired = true :=
  C1_over_temperature_dominates docCfg new Reachable.init (.finite 65) (by decide)

/-- C2: in a reachable critical state, `monitorTemperature` with any reading,
`allowCharging`, `allowFullDischarge`, and `performManualReset` while the recorded
temperature is above `MAX_SAFE_TEMP_C - 5` all leave the state latched (critical, reset
required, contactors open, both inhibits set); and over any call sequence without an
authorised reset the fault state stays `OVER_TEMPERATURE_CRITICAL`. -/
theorem C2_latch (cfg : Config) (s : State) (hs : Reachable cfg s)
    (hc : s.faultState = OVER_TEMPERATURE_CRITICAL) :
    (∀ t : FloatVal, Latched (monitorTemperature cfg t s).1) ∧
    Latched (allowCharging cfg s).1 ∧
    Latched (allowFullDischarge cfg s).1 ∧
    (s.currentBatteryTemperatureC > ↑(cfg.MAX_SAFE_TEMP_C - 5) →
      Latched (performManualReset cfg s).1) ∧
    (∀ ops : List Op, noSuccessfulReset cfg ops s = true →
      (run cfg ops s).faultState = OVER_TEMPERATURE_CRITICAL) := by
  have hI := latchInv_of_reachable cfg s hs
  refine ⟨fun t => ?_, ?_, ?_, fun ht => ?_, fun ops hn => run_critical cfg ops s hI hc hn⟩
  · exact latched_of_latchInv _ (latchInv_step cfg (Op.monitor t) s hI)
      (step_critical cfg (Op.monitor t) s hI hc (by simp))
  · exact latched_of_latchInv _ (latchInv_step cfg Op.allowCharge s hI)
      (step_critical cfg Op.allowCharge s hI hc (by simp))
  · exact latched_of_latchInv _ (latchInv_step cfg Op.allowDischarge s hI)
      (step_critical cfg Op.allowDischarge s hI hc (by simp))
  · refine latched_of_latchInv _ (latchInv_step cfg Op.reset s hI)
      (step_critical cfg Op.reset s hI hc (fun _ => ?_))
    simp [resetAuthorized, hc, FloatVal.not_le_of_gt ht]

/-- C2 at a concrete input: the state reached from a fresh supervisor by reading 65. -/
theorem C2_latch_witness :
    (∀ t : FloatVal, Latched (monitorTemperature docCfg t (monitorTemperature docCfg (.finite 65) new).1).1) ∧
    Latched (allowCharging docCfg (monitorTemperature docCfg (.finite 65) new).1).1 ∧
    Latched (allowFullDischarge docCfg (monitorTemperature docCfg (.finite 65) new).1).1 ∧
    ((monitorTemperature docCfg (.finite 65) new).1.currentBatteryTemperatureC >
        ↑(docCfg.MAX_SAFE_TEMP_C - 5) →
      Latched (performManualReset docCfg (monitorTemperature docCfg (.finite 65) new).1).1) ∧
    (∀ ops : List Op, noSuccessfulReset docCfg ops (monitorTemperature docCfg (.finite 65) new).1 = true →
      (run docCfg ops (monitorTemperature docCfg (.finite 65) new).1).faultState =
        OVER_TEMPERATURE_CRITICAL) :=
  C2_latch docCfg (monitorTemperature docCfg (.finite 65) new).1
    (Reachable.call (Op.monitor (.finite 65)) new Reachable.init) (by decide)

theorem performManualReset_authorized_frame (cfg : Config) (s : State)
    (hc : s.faultState = OVER_TEMPERATURE_CRITICAL)
    (ht : s.currentBatteryTemperatureC ≤ ↑(cfg.MAX_SAFE_TEMP_C - 5)) :
    (performManualReset cfg s).1.manualResetRequired = false ∧
    (performManualReset cfg s).1.contactorsOpen = false ∧
    (performManualReset cfg s).1.currentBatteryTemperatureC = s.currentBatteryTemperatureC ∧
    (performManualReset cfg s).1.faultState ≠ OVER_TEMPERATURE_CRITICAL := by
  have hle : ¬ s.currentBatteryTemperatureC > ↑cfg.MAX_SAFE_TEMP_C := by
    intro h
    have := FloatVal.lt_of_gt_of_le h ht
    linarith
  have hF := frame_monitorTemperature cfg s.currentBatteryTemperatureC
    (afterAuthorizedReset s) hle
  rw [performManualReset_authorized cfg s hc ht]
  obtain ⟨h1, h2, _, h4, h5⟩ := hF
  exact ⟨h1, h2, h4, h5 (by simp [afterAuthorizedReset])⟩

/-- C3: in a reachable critical state `performManualReset` succeeds (the latch is cleared
and the fault state is no longer critical) exactly when the recorded temperature is at
most `MAX_SAFE_TEMP_C - 5`; at `MAX_SAFE_TEMP_C - 5` it succeeds and at
`MAX_SAFE_TEMP_C - 4` it fails. -/
theorem C3_reset_hysteresis (cfg : Config) (s : State) (hs : Reachable cfg s)
    (hc : s.faultState = OVER_TEMPERATURE_CRITICAL) :
    (((performManualReset cfg s).1.manualResetRequired = false ∧
        (performManualReset cfg s).1.faultState ≠ OVER_TEMPERATURE_CRITICAL) ↔
      s.currentBatteryTemperatureC ≤ ↑(cfg.MAX_SAFE_TEMP_C - 5)) ∧
    (s.currentBatteryTemperatureC = ↑(cfg.MAX_SAFE_TEMP_C - 5) →
      (performManualReset cfg s).1.manualResetRequired = false ∧
        (performManualReset cfg s).1.faultState ≠ OVER_TEMPERATURE_CRITICAL) ∧
    (s.currentBatteryTemperatureC = ↑(cfg.MAX_SAFE_TEMP_C - 4) →
      ¬ ((performManualReset cfg s).1.manualResetRequired = false ∧
        (performManualReset cfg s).1.faultState ≠ OVER_TEMPERATURE_CRITICAL)) := by
  have hI := latchInv_of_reachable cfg s hs
  have key : ((performManualReset cfg s).1.manualResetRequired = false ∧
        (performManualReset cfg s).1.faultState ≠ OVER_TEMPERATURE_CRITICAL) ↔
      s.currentBatteryTemperatureC ≤ ↑(cfg.MAX_SAFE_TEMP_C - 5) := by
    constructor
    · intro h
      by_contra hn
      rw [performManualReset_denied cfg s hc hn] at h
      exact h.2 hc
    · intro h
      have hf := performManualReset_authorized_frame cfg s hc h
      exact ⟨hf.1, hf.2.2.2⟩
  refine ⟨key, fun h => key.mpr ?_, fun h => ?_⟩
  · rw [h]
    exact (FloatVal.finite_le_finite _ _).mpr (le_refl _)
  · rw [key, h]
    intro hle
    have := (FloatVal.finite_le_finite _ _).mp hle
    linarith

/-- C3 at a concrete input: the documented thresholds, readings 65 then 55 (the boundary). -/
theorem C3_reset_hysteresis_witness :
    (((performManualReset docCfg
          (run docCfg [Op.monitor (.finite 65), Op.monitor (.finite 55)] new)).1.manualResetRequired = false ∧
        (performManualReset docCfg
          (run docCfg [Op.monitor (.finite 65), Op.monitor (.finite 55)] new)).1.faultState ≠
            OVER_TEMPERATURE_CRITICAL) ↔
      (run docCfg [Op.monitor (.finite 65), Op.monitor (.finite 55)] new).currentBatteryTemperatureC ≤
        ↑(docCfg.MAX_SAFE_TEMP_C - 5)) ∧
    ((run docCfg [Op.monitor (.finite 65), Op.monitor (.finite 55)] new).currentBatteryTemperatureC =
        ↑(docCfg.MAX_SAFE_TEMP_C - 5) →
      (performManualReset docCfg
          (run docCfg [Op.monitor (.finite 65), Op.monitor (.finite 55)] new)).1.manualResetRequired = false ∧
        (performManualReset docCfg
          (run docCfg [Op.monitor (.finite 65), Op.monitor (.finite 55)] new)).1.faultState ≠
            OVER_TEMPERATURE_CRITICAL) ∧
    ((run docCfg [Op.monitor (.finite 65), Op.monitor (.finite 55)] new).currentBatteryTemperatureC =
        ↑(docCfg.MAX_SAFE_TEMP_C - 4) →
      ¬ ((performManualReset docCfg
          (run docCfg [Op.monitor (.finite 65), Op.monitor (.finite 55)] new)).1.manualResetRequired = false ∧
        (performManualReset docCfg
          (run docCfg [Op.monitor (.finite 65), Op.monitor (.finite 55)] new)).1.faultState ≠
            OVER_TEMPERATURE_CRITICAL)) :=
  C3_reset_hysteresis docCfg (run docCfg [Op.monitor (.finite 65), Op.monitor (.finite 55)] new)
    (Reachable.call (Op.monitor (.finite 55)) _ (Reachable.call (Op.monitor (.finite 65)) new Reachable.init))
    (by decide)

theorem afterAuthorizedReset_monitor_faultState (cfg : Config) (s : State)
    (h1 : cfg.MIN_SAFE_DISCHARGE_TEMP_C < cfg.MIN_LIMITED_DISCHARGE_TEMP_C)
    (h2 : cfg.MIN_LIMITED_DISCHARGE_TEMP_C < cfg.MIN_SAFE_CHARGE_TEMP_C)
    (ht : s.currentBatteryTemperatureC ≤ ↑(cfg.MAX_SAFE_TEMP_C - 5)) :
    (↑cfg.MIN_SAFE_CHARGE_TEMP_C ≤ s.currentBatteryTemperatureC →
      (monitorTemperature cfg s.currentBatteryTemperatureC
        (afterAuthorizedReset s)).1.faultState = NORMAL) ∧
    (↑cfg.MIN_LIMITED_DISCHARGE_TEMP_C ≤ s.currentBatteryTemperatureC →
      s.currentBatteryTemperatureC < ↑cfg.MIN_SAFE_CHARGE_TEMP_C →
      (monitorTemperature cfg s.currentBatteryTemperatureC
        (afterAuthorizedReset s)).1.faultState = UNDER_TEMPERATURE_CHARGE_INHIBIT) ∧
    (↑cfg.MIN_SAFE_DISCHARGE_TEMP_C ≤ s.currentBatteryTemperatureC →
      s.currentBatteryTemperatureC < ↑cfg.MIN_LIMITED_DISCHARGE_TEMP_C →
      (monitorTemperature cfg s.currentBatteryTemperatureC
        (afterAuthorizedReset s)).1.faultState = UNDER_TEMPERATURE_DISCHARGE_LIMITED) ∧
    (s.currentBatteryTemperatureC < ↑cfg.MIN_SAFE_DISCHARGE_TEMP_C →
      (monitorTemperature cfg s.currentBatteryTemperatureC
        (afterAuthorizedReset s)).1.faultState = UNDER_TEMPERATURE_DISCHARGE_INHIBIT) := by
  obtain ⟨T, fs, msg, co, ec, ci, di, lim, mrr⟩ := s
  simp only at ht
  have hmax : ¬ T > ↑cfg.MAX_SAFE_TEMP_C := by
    intro h
    have := FloatVal.lt_of_gt_of_le h ht
    linarith
  refine ⟨fun a => ?_, fun a b => ?_, fun a b => ?_, fun a => ?_⟩
  · have c1 : ¬ T < ↑cfg.MIN_SAFE_CHARGE_TEMP_C := FloatVal.not_lt_of_ge a
    have c2 : ¬ T < ↑cfg.MIN_LIMITED_DISCHARGE_TEMP_C :=
      FloatVal.not_lt_of_ge (FloatVal.ge_of_ge_of_le a (le_of_lt h2))
    simp [afterAuthorizedReset, monitorTemperature, resetToNormalState_fst, hmax, c1, c2]
  · have c2 : ¬ T < ↑cfg.MIN_LIMITED_DISCHARGE_TEMP_C := FloatVal.not_lt_of_ge a
    have c3 : ¬ T < ↑cfg.MIN_SAFE_DISCHARGE_TEMP_C :=
      FloatVal.not_lt_of_ge (FloatVal.ge_of_ge_of_le a (le_of_lt h1))
    simp [afterAuthorizedReset, monitorTemperature, handleUnderTemperature,
      handleUnderTemperatureCharge, handleUnderTemperatureDischarge, inhibitCharging,
      hmax, b, c2, c3]
  · have c1 : T < ↑cfg.MIN_SAFE_CHARGE_TEMP_C := FloatVal.lt_of_lt_of_le b (le_of_lt h2)
    have c3 : ¬ T < ↑cfg.MIN_SAFE_DISCHARGE_TEMP_C := FloatVal.not_lt_of_ge a
    simp [afterAuthorizedReset, monitorTemperature, handleUnderTemperature,
      handleUnderTemperatureCharge, handleUnderTemperatureDischarge, inhibitCharging,
      limitDischargeCurrent, hmax, a, b, c1, c3]
  · have c1 : T < ↑cfg.MIN_SAFE_CHARGE_TEMP_C :=
      FloatVal.lt_of_lt_of_le a (le_of_lt (lt_trans h1 h2))
    simp [afterAuthorizedReset, monitorTemperature, handleUnderTemperature,
      handleUnderTemperatureCharge, handleUnderTemperatureDischarge, inhibitCharging,
      inhibitDischarging, hmax, a, c1]

/-- C4: with thresholds ordered `MIN_SAFE_DISCHARGE < MIN_LIMITED_DISCHARGE <
MIN_SAFE_CHARGE < MAX_SAFE - 5`, an authorised `performManualReset` in a reachable critical
state clears the latch, closes the contactors, and lands on the fault state fixed by the
recorded temperature alone: `NORMAL`, charge inhibit, discharge limited or discharge
inhibit according to the band; the contactors are closed in every case. -/
theorem C4_reset_reevaluates (cfg : Config)
    (h1 : cfg.MIN_SAFE_DISCHARGE_TEMP_C < cfg.MIN_LIMITED_DISCHARGE_TEMP_C)
    (h2 : cfg.MIN_LIMITED_DISCHARGE_TEMP_C < cfg.MIN_SAFE_CHARGE_TEMP_C)
    (_h3 : cfg.MIN_SAFE_CHARGE_TEMP_C < cfg.MAX_SAFE_TEMP_C - 5)
    (s : State) (_hs : Reachable cfg s)
    (hc : s.faultState = OVER_TEMPERATURE_CRITICAL)
    (ht : s.currentBatteryTemperatureC ≤ ↑(cfg.MAX_SAFE_TEMP_C - 5)) :
    (performManualReset cfg s).1.manualResetRequired = false ∧
    (performManualReset cfg s).1.contactorsOpen = false ∧
    (↑cfg.MIN_SAFE_CHARGE_TEMP_C ≤ s.currentBatteryTemperatureC →
      (performManualReset cfg s).1.faultState = NORMAL) ∧
    (↑cfg.MIN_LIMITED_DISCHARGE_TEMP_C ≤ s.currentBatteryTemperatureC →
      s.currentBatteryTemperatureC < ↑cfg.MIN_SAFE_CHARGE_TEMP_C →
      (performManualReset cfg s).1.faultState = UNDER_TEMPERATURE_CHARGE_INHIBIT) ∧
    (↑cfg.MIN_SAFE_DISCHARGE_TEMP_C ≤ s.currentBatteryTemperatureC →
      s.currentBatteryTemperatureC < ↑cfg.MIN_LIMITED_DISCHARGE_TEMP_C →
      (performManualReset cfg s).1.faultState = UNDER_TEMPERATURE_DISCHARGE_LIMITED) ∧
    (s.currentBatteryTemperatureC < ↑cfg.MIN_SAFE_DISCHARGE_TEMP_C →
      (performManualReset cfg s).1.faultState = UNDER_TEMPERATURE_DISCHARGE_INHIBIT) := by
  have hf := performManualReset_authorized_frame cfg s hc ht
  refine ⟨hf.1, hf.2.1, ?_⟩
  rw [performManualReset_authorized cfg s hc ht]
  exact afterAuthorizedReset_monitor_faultState cfg s h1 h2 ht

/-- C4 at a concrete input: thresholds -20 < 0 < 5 < 55, readings 65 then 25. -/
theorem C4_reset_reevaluates_witness :
    (performManualReset orderedCfg
      (run orderedCfg [Op.monitor (.finite 65), Op.monitor (.finite 25)] new)).1.manualResetRequired = false ∧
    (performManualReset orderedCfg
      (run orderedCfg [Op.monitor (.finite 65), Op.monitor (.finite 25)] new)).1.contactorsOpen = false ∧
    (↑orderedCfg.MIN_SAFE_CHARGE_TEMP_C ≤
        (run orderedCfg [Op.monitor (.finite 65), Op.monitor (.finite 25)] new).currentBatteryTemperatureC →
      (performManualReset orderedCfg
        (run orderedCfg [Op.monitor (.finite 65), Op.monitor (.finite 25)] new)).1.faultState = NORMAL) ∧
    (↑orderedCfg.MIN_LIMITED_DISCHARGE_TEMP_C ≤
        (run orderedCfg [Op.monitor (.finite 65), Op.monitor (.finite 25)] new).currentBatteryTemperatureC →
      (run orderedCfg [Op.monitor (.finite 65), Op.monitor (.finite 25)] new).currentBatteryTemperatureC <
        ↑orderedCfg.MIN_SAFE_CHARGE_TEMP_C →
      (performManualReset orderedCfg
        (run orderedCfg [Op.monitor (.finite 65), Op.monitor (.finite 25)] new)).1.faultState =
          UNDER_TEMPERATURE_CHARGE_INHIBIT) ∧
    (↑orderedCfg.MIN_SAFE_DISCHARGE_TEMP_C ≤
        (run orderedCfg [Op.monitor (.finite 65), Op.monitor (.finite 25)] new).currentBatteryTemperatureC →
      (run orderedCfg [Op.monitor (.finite 65), Op.monitor (.finite 25)] new).currentBatteryTemperatureC <
        ↑orderedCfg.MIN_LIMITED_DISCHARGE_TEMP_C →
      (performManualReset orderedCfg
        (run orderedCfg [Op.monitor (.finite 65), Op.monitor (.finite 25)] new)).1.faultState =
          UNDER_TEMPERATURE_DISCHARGE_LIMITED) ∧
    ((run orderedCfg [Op.monitor (.finite 65), Op.monitor (.finite 25)] new).currentBatteryTemperatureC <
        ↑orderedCfg.MIN_SAFE_DISCHARGE_TEMP_C →
      (performManualReset orderedCfg
        (run orderedCfg [Op.monitor (.finite 65), Op.monitor (.finite 25)] new)).1.faultState =
          UNDER_TEMPERATURE_DISCHARGE_INHIBIT) :=
  C4_reset_reevaluates orderedCfg (by decide) (by decide) (by decide!)
    (run orderedCfg [Op.monitor (.finite 65), Op.monitor (.finite 25)] new)
    (Reachable.call (Op.monitor (.finite 25)) _ (Reachable.call (Op.monitor (.finite 65)) new Reachable.init))
    (by decide) (by decide!)

/-! ## Cold-band invariants -/

theorem coldInv_handleOverTemperature (s : State) (h : ColdInv s) :
    ColdInv (handleOverTemperature s).1 := by
  unfold handleOverTemperature
  simp only []
  split_ifs
  · simp [ColdInv, inhibitDischarging, inhibitCharging, activateEmergencyCooling,
      openMainContactors]
  · exact h

theorem coldInv_handleUnderTemperatureCharge (cfg : Config) (s : State) (h : ColdInv s) :
    ColdInv (handleUnderTemperatureCharge cfg s).1 := by
  unfold handleUnderTemperatureCharge
  simp only []
  split_ifs
  · simp [ColdInv, inhibitCharging]
  all_goals exact h

theorem coldInv_handleUnderTemperatureDischarge (cfg : Config) (s : State) (h : ColdInv s) :
    ColdInv (handleUnderTemperatureDischarge cfg s).1 := by
  unfold handleUnderTemperatureDischarge limitDischargeCurrent
  simp only []
  split_ifs <;> first | exact h | simp [ColdInv, inhibitDischarging]

theorem coldInv_resetToNormalState (s : State) (h : ColdInv s) :
    ColdInv (resetToNormalState s).1 := by
  rw [resetToNormalState_fst]
  split_ifs
  · exact h
  · simp [ColdInv]

/-- The discharging check establishes the stored-limit fact at the current temperature. -/
theorem handleUnderTemperatureDischarge_limit (cfg : Config) (s : State) (h : ColdInv s)
    (hn : s.faultState ≠ OVER_TEMPERATURE_CRITICAL) :
    (handleUnderTemperatureDischarge cfg s).1.currentBatteryTemperatureC <
        ↑cfg.MIN_LIMITED_DISCHARGE_TEMP_C →
    (handleUnderTemperatureDischarge cfg s).1.dischargingInhibited = false →
    (handleUnderTemperatureDischarge cfg s).1.dischargeCurrentLimit = 100 := by
  obtain ⟨T, fs, msg, co, ec, ci, di, lim, mrr⟩ := s
  cases fs <;>
    simp [ColdInv, handleUnderTemperatureDischarge, inhibitDischarging,
      limitDischargeCurrent] at h hn ⊢ <;>
    (try split_ifs) <;> simp_all

theorem bandInv_monitorTemperature (cfg : Config) (t : FloatVal) (s : State) (h : ColdInv s) :
    BandInv cfg (monitorTemperature cfg t s).1 := by
  have h1 : ColdInv { s with currentBatteryTemperatureC := t } := h
  by_cases ht : t > ↑cfg.MAX_SAFE_TEMP_C
  · rw [monitorTemperature_of_gt cfg t s ht]
    refine ⟨coldInv_handleOverTemperature _ h1, fun _ => handleOverTemperature_faultState _,
      fun hn => absurd (handleOverTemperature_faultState _) hn⟩
  · have hF := frame_monitorTemperature cfg t s ht
    have htemp : (monitorTemperature cfg t s).1.currentBatteryTemperatureC = t := hF.2.2.2.1
    refine ⟨?_, fun hgt => absurd (htemp ▸ hgt) ht, ?_⟩
    · unfold monitorTemperature
      simp only []
      rw [if_neg ht]
      split_ifs
      · exact coldInv_handleUnderTemperatureDischarge _ _
          (coldInv_handleUnderTemperatureCharge _ _ h1)
      · exact h1
      · exact coldInv_resetToNormalState _ h1
      · exact h1
    · rw [htemp]
      unfold monitorTemperature
      simp only []
      rw [if_neg ht]
      split_ifs with c1 c2 c3
      · intro _ hlt
        have hch := frame_handleUnderTemperatureCharge cfg
          { s with currentBatteryTemperatureC := t }
        have hdis := frame_handleUnderTemperatureDischarge cfg
          (handleUnderTemperatureCharge cfg { s with currentBatteryTemperatureC := t }).1
        apply handleUnderTemperatureDischarge_limit cfg _
          (coldInv_handleUnderTemperatureCharge _ _ h1) (hch.2.2.2.2 c2)
        rw [hdis.2.2.2.1, hch.2.2.2.1]
        exact hlt
      · intro hn
        exact absurd (not_not.mp c2) hn
      · intro _ hlt
        exact absurd (Or.inr hlt) c1
      · intro _ hlt
        exact absurd (Or.inr hlt) c1

theorem bandInv_performManualReset (cfg : Config) (s : State) (h : BandInv cfg s) :
    BandInv cfg (performManualReset cfg s).1 := by
  unfold performManualReset
  simp only []
  split_ifs
  · apply bandInv_monitorTemperature
    rw [resetToNormalState_fst]
    simp [ColdInv]
  · exact h
  · exact h

theorem bandInv_allowCharging (cfg : Config) (s : State) (h : BandInv cfg s) :
    BandInv cfg (allowCharging cfg s).1 := by
  unfold allowCharging
  simp only []
  split_ifs
  · apply bandInv_monitorTemperature
    exact coldInv_resetToNormalState _ h.1
  · exact h
  · exact h

theorem bandInv_allowFullDischarge (cfg : Config) (s : State) (hL : LatchInv s)
    (h : BandInv cfg s) : BandInv cfg (allowFullDischarge cfg s).1 := by
  unfold allowFullDischarge
  simp only []
  split_ifs with c1 c2
  · apply bandInv_monitorTemperature
    have hm : s.manualResetRequired = false := by
      have := hL.1
      cases hmrr : s.manualResetRequired
      · rfl
      · exact absurd (this.mpr hmrr) c1.2
    rw [resetToNormalState_fst]
    simp [ColdInv, hm]
  · simp only [not_or] at c2
    refine ⟨⟨fun hf => absurd hf c2.1, fun hf => absurd hf c2.2⟩, h.2.1, fun _ hlt => ?_⟩
    exact absurd c1.1 (FloatVal.not_ge_of_lt hlt)
  · exact h

theorem bandInv_of_reachable (cfg : Config)
    (h2 : cfg.MIN_LIMITED_DISCHARGE_TEMP_C ≤ 25) (h4 : 25 ≤ cfg.MAX_SAFE_TEMP_C)
    (s : State) (hs : Reachable cfg s) : BandInv cfg s := by
  induction hs with
  | init =>
    refine ⟨by simp [ColdInv, new], fun hgt => ?_, fun _ hlt => ?_⟩
    · simp only [new] at hgt
      have := (FloatVal.finite_lt_finite _ _).mp hgt
      linarith
    · simp only [new] at hlt
      have := (FloatVal.finite_lt_finite _ _).mp hlt
      linarith
  | call op s hs ih =>
    cases op
    · exact bandInv_monitorTemperature cfg _ s ih.1
    · exact bandInv_performManualReset cfg s ih
    · exact bandInv_allowCharging cfg s ih
    · exact bandInv_allowFullDischarge cfg s (latchInv_of_reachable cfg s hs) ih

/-- Away from NaN the safe-range permission holds: with thresholds ordered
`MIN_SAFE_DISCHARGE < MIN_LIMITED_DISCHARGE < MIN_SAFE_CHARGE <= 25 <= MAX_SAFE`, in every
reachable state whose recorded temperature is not NaN, `canCharge` implies the recorded
temperature lies in `[MIN_SAFE_CHARGE, MAX_SAFE]`, `canDischarge` implies it lies in
`[MIN_SAFE_DISCHARGE, MAX_SAFE]`, and an allowed discharge current of 1000 implies it lies
in `[MIN_LIMITED_DISCHARGE, MAX_SAFE]`. -/
theorem safe_range_permission_of_not_nan (cfg : Config)
    (_h1 : cfg.MIN_SAFE_DISCHARGE_TEMP_C < cfg.MIN_LIMITED_DISCHARGE_TEMP_C)
    (h2 : cfg.MIN_LIMITED_DISCHARGE_TEMP_C < cfg.MIN_SAFE_CHARGE_TEMP_C)
    (h3 : cfg.MIN_SAFE_CHARGE_TEMP_C ≤ 25) (h4 : 25 ≤ cfg.MAX_SAFE_TEMP_C)
    (s : State) (hs : Reachable cfg s)
    (hnan : s.currentBatteryTemperatureC ≠ FloatVal.nan) :
    (canCharge cfg s = true →
      ↑cfg.MIN_SAFE_CHARGE_TEMP_C ≤ s.currentBatteryTemperatureC ∧
      s.currentBatteryTemperatureC ≤ ↑cfg.MAX_SAFE_TEMP_C) ∧
    (canDischarge cfg s = true →
      ↑cfg.MIN_SAFE_DISCHARGE_TEMP_C ≤ s.currentBatteryTemperatureC ∧
      s.currentBatteryTemperatureC ≤ ↑cfg.MAX_SAFE_TEMP_C) ∧
    (getAllowedDischargeCurrentLimit cfg s = 1000 →
      ↑cfg.MIN_LIMITED_DISCHARGE_TEMP_C ≤ s.currentBatteryTemperatureC ∧
      s.currentBatteryTemperatureC ≤ ↑cfg.MAX_SAFE_TEMP_C) := by
  have hB := bandInv_of_reachable cfg (by linarith) h4 s hs
  obtain ⟨⟨hlim, _⟩, hmax, hband⟩ := hB
  have hle : s.faultState ≠ OVER_TEMPERATURE_CRITICAL →
      s.currentBatteryTemperatureC ≤ ↑cfg.MAX_SAFE_TEMP_C := by
    intro hn
    exact FloatVal.le_of_not_gt hnan (fun hgt => hn (hmax hgt))
  refine ⟨fun h => ?_, fun h => ?_, fun h => ?_⟩
  · unfold canCharge at h
    split_ifs at h with c1 c2
    exact ⟨FloatVal.ge_of_not_lt hnan c2, hle c1⟩
  · unfold canDischarge at h
    split_ifs at h with c1 c2
    exact ⟨FloatVal.ge_of_not_lt hnan c2, hle c1⟩
  · unfold getAllowedDischargeCurrentLimit at h
    split_ifs at h with c1 c2
    · norm_num at h
    · simp only [not_or] at c1
      have hdi : s.dischargingInhibited = false := by simpa using c1.2.1
      have h100 : s.dischargeCurrentLimit = 100 := by
        rcases c2 with c2 | c2
        · exact hlim c2
        · exact hband c1.1 c2 hdi
      rw [h100] at h
      norm_num at h
    · simp only [not_or] at c1 c2
      exact ⟨FloatVal.ge_of_not_lt hnan c2.2, hle c1.1⟩

/-- C5, evaluated at the failing input: with thresholds -20 < 0 < 5 <= 25 <= 60 a fresh
supervisor receives the reading NaN.  Every comparison of `monitorTemperature` is false,
so `resetToNormalState` runs and the state is reachable and `NORMAL` with recorded
temperature NaN: `canCharge` and `canDischarge` are true and the allowed discharge
current is 1000, while the recorded temperature satisfies none of the range bounds. -/
theorem C5_nan_reading_permits_operation :
    orderedCfg.MIN_SAFE_DISCHARGE_TEMP_C < orderedCfg.MIN_LIMITED_DISCHARGE_TEMP_C ∧
    orderedCfg.MIN_LIMITED_DISCHARGE_TEMP_C < orderedCfg.MIN_SAFE_CHARGE_TEMP_C ∧
    orderedCfg.MIN_SAFE_CHARGE_TEMP_C ≤ 25 ∧ 25 ≤ orderedCfg.MAX_SAFE_TEMP_C ∧
    Reachable orderedCfg (run orderedCfg [Op.monitor FloatVal.nan] new) ∧
    (run orderedCfg [Op.monitor FloatVal.nan] new).faultState = NORMAL ∧
    canCharge orderedCfg (run orderedCfg [Op.monitor FloatVal.nan] new) = true ∧
    canDischarge orderedCfg (run orderedCfg [Op.monitor FloatVal.nan] new) = true ∧
    getAllowedDischargeCurrentLimit orderedCfg
      (run orderedCfg [Op.monitor FloatVal.nan] new) = 1000 ∧
    ¬ (↑orderedCfg.MIN_SAFE_CHARGE_TEMP_C ≤
      (run orderedCfg [Op.monitor FloatVal.nan] new).currentBatteryTemperatureC) ∧
    ¬ (↑orderedCfg.MIN_SAFE_DISCHARGE_TEMP_C ≤
      (run orderedCfg [Op.monitor FloatVal.nan] new).currentBatteryTemperatureC) ∧
    ¬ (↑orderedCfg.MIN_LIMITED_DISCHARGE_TEMP_C ≤
      (run orderedCfg [Op.monitor FloatVal.nan] new).currentBatteryTemperatureC) ∧
    ¬ ((run orderedCfg [Op.monitor FloatVal.nan] new).currentBatteryTemperatureC ≤
      ↑orderedCfg.MAX_SAFE_TEMP_C) :=
  ⟨by decide, by decide, by decide, by decide,
    Reachable.call (Op.monitor FloatVal.nan) new Reachable.init,
    by decide, by decide, by decide, by decide, by decide, by decide, by decide, by decide⟩

/-- C6, evaluated at the documented thresholds (discharge thresholds -20 and 0): after
the reading -25 the supervisor is reachable with no manual reset pending, and the next
reading -10, inside the limited band, leaves it in `UNDER_TEMPERATURE_DISCHARGE_INHIBIT`
with the discharge inhibit still set, `canDischarge` false and an allowed current of 0, not
in `UNDER_TEMPERATURE_DISCHARGE_LIMITED` with an allowed current of 100. -/
theorem C6_limited_band_keeps_inhibit :
    (run docCfg [Op.monitor (.finite (-25))] new).manualResetRequired = false ∧
    docCfg.MIN_SAFE_DISCHARGE_TEMP_C ≤ -10 ∧ (-10 : ℚ) < docCfg.MIN_LIMITED_DISCHARGE_TEMP_C ∧
    (monitorTemperature docCfg (.finite (-10)) (run docCfg [Op.monitor (.finite (-25))] new)).1.faultState =
      UNDER_TEMPERATURE_DISCHARGE_INHIBIT ∧
    (monitorTemperature docCfg (.finite (-10))
      (run docCfg [Op.monitor (.finite (-25))] new)).1.dischargingInhibited = true ∧
    canDischarge docCfg
      (monitorTemperature docCfg (.finite (-10)) (run docCfg [Op.monitor (.finite (-25))] new)).1 = false ∧
    getAllowedDischargeCurrentLimit docCfg
      (monitorTemperature docCfg (.finite (-10)) (run docCfg [Op.monitor (.finite (-25))] new)).1 = 0 := by
  decide!

theorem monitorTemperature_nominal (cfg : Config)
    (h : cfg.MIN_LIMITED_DISCHARGE_TEMP_C ≤ cfg.MIN_SAFE_CHARGE_TEMP_C)
    (s : State) (hm : s.manualResetRequired = false)
    (t : FloatVal) (ht1 : ↑cfg.MIN_SAFE_CHARGE_TEMP_C ≤ t) (ht2 : t ≤ ↑cfg.MAX_SAFE_TEMP_C) :
    monitorTemperature cfg t s =
      ({ s with currentBatteryTemperatureC := t, faultState := NORMAL,
                alertMessage := "System Normal", chargingInhibited := false,
                dischargingInhibited := false, dischargeCurrentLimit := 1000 },
        if s.faultState ≠ NORMAL then recoveryAlerts else []) := by
  have c0 : ¬ ↑cfg.MAX_SAFE_TEMP_C < t := FloatVal.not_gt_of_le ht2
  have c1 : ¬ t < ↑cfg.MIN_SAFE_CHARGE_TEMP_C := FloatVal.not_lt_of_ge ht1
  have c2 : ¬ t < ↑cfg.MIN_LIMITED_DISCHARGE_TEMP_C :=
    FloatVal.not_lt_of_ge (FloatVal.ge_of_ge_of_le ht1 h)
  obtain ⟨t0, fs, msg, co, ec, ci, di, lim, mrr⟩ := s
  simp only at hm
  subst hm
  cases fs <;>
    simp [monitorTemperature, resetToNormalState, recoveryAlerts, c0, c1, c2]

theorem handleOverTemperature_idem (s : State) :
    handleOverTemperature (handleOverTemperature s).1 = ((handleOverTemperature s).1, []) := by
  have h := handleOverTemperature_faultState s
  generalize (handleOverTemperature s).1 = r at h
  unfold handleOverTemperature
  simp [h]

theorem handleOverTemperature_temp (s : State) :
    (handleOverTemperature s).1.currentBatteryTemperatureC = s.currentBatteryTemperatureC := by
  unfold handleOverTemperature
  simp only []
  split_ifs <;> rfl

theorem handleUnderTemperatureCharge_noop (cfg : Config) (s : State)
    (h : s.currentBatteryTemperatureC < ↑cfg.MIN_SAFE_CHARGE_TEMP_C →
      s.chargingInhibited = true) :
    handleUnderTemperatureCharge cfg s = (s, []) := by
  unfold handleUnderTemperatureCharge
  split_ifs with c1 c2 c3
  · rw [h c1] at c2
    exact absurd c2 (by decide)
  all_goals rfl

theorem handleUnderTemperature_chargingInhibited (cfg : Config) (s : State)
    (hn : s.faultState ≠ OVER_TEMPERATURE_CRITICAL)
    (h : s.currentBatteryTemperatureC < ↑cfg.MIN_SAFE_CHARGE_TEMP_C) :
    (handleUnderTemperature cfg s).1.chargingInhibited = true := by
  obtain ⟨T, fs, msg, co, ec, ci, di, lim, mrr⟩ := s
  simp only at h hn
  cases ci <;>
    simp [handleUnderTemperature, handleUnderTemperatureCharge, inhibitCharging, h, hn,
      handleUnderTemperatureDischarge, inhibitDischarging, limitDischargeCurrent] <;>
    split_ifs <;> simp

theorem handleUnderTemperatureDischarge_idem (cfg : Config) (s : State) :
    handleUnderTemperatureDischarge cfg (handleUnderTemperatureDischarge cfg s).1 =
      ((handleUnderTemperatureDischarge cfg s).1, []) := by
  obtain ⟨T, fs, msg, co, ec, ci, di, lim, mrr⟩ := s
  by_cases c1 : T < ↑cfg.MIN_SAFE_DISCHARGE_TEMP_C
  · cases fs <;> cases di <;>
      simp [handleUnderTemperatureDischarge, inhibitDischarging, c1]
  · by_cases c2 : T < ↑cfg.MIN_LIMITED_DISCHARGE_TEMP_C
    · have c1' : ↑cfg.MIN_SAFE_DISCHARGE_TEMP_C ≤ T := FloatVal.ge_of_not_lt_of_lt c1 c2
      cases fs <;> cases di <;>
        simp [handleUnderTemperatureDischarge, limitDischargeCurrent, c1, c1', c2]
    · simp [handleUnderTemperatureDischarge, c1, c2]

theorem handleUnderTemperature_idem (cfg : Config) (s : State)
    (hn : s.faultState ≠ OVER_TEMPERATURE_CRITICAL) :
    handleUnderTemperature cfg (handleUnderTemperature cfg s).1 =
      ((handleUnderTemperature cfg s).1, []) := by
  have hF := frame_handleUnderTemperature cfg s
  have hci := handleUnderTemperature_chargingInhibited cfg s hn
  have hno : handleUnderTemperatureCharge cfg (handleUnderTemperature cfg s).1 =
      ((handleUnderTemperature cfg s).1, []) := by
    apply handleUnderTemperatureCharge_noop
    intro hlt
    rw [hF.2.2.2.1] at hlt
    exact hci hlt
  have hd := handleUnderTemperatureDischarge_idem cfg (handleUnderTemperatureCharge cfg s).1
  show (_, _) = _
  rw [hno]
  show ((handleUnderTemperatureDischarge cfg
      (handleUnderTemperatureDischarge cfg (handleUnderTemperatureCharge cfg s).1).1).1,
    [] ++ (handleUnderTemperatureDischarge cfg
      (handleUnderTemperatureDischarge cfg (handleUnderTemperatureCharge cfg s).1).1).2) = _
  rw [hd]
  rfl

theorem resetToNormalState_idem (s : State) :
    resetToNormalState (resetToNormalState s).1 = ((resetToNormalState s).1, []) := by
  obtain ⟨T, fs, msg, co, ec, ci, di, lim, mrr⟩ := s
  cases mrr <;> cases fs <;> simp [resetToNormalState]

theorem setTemp_eq_self (s : State) (t : FloatVal) (h : s.currentBatteryTemperatureC = t) :
    { s with currentBatteryTemperatureC := t } = s := by
  subst h
  rfl

theorem monitorTemperature_under (cfg : Config) (t : FloatVal) (s : State)
    (ht : ¬ t > ↑cfg.MAX_SAFE_TEMP_C)
    (hu : t < ↑cfg.MIN_SAFE_CHARGE_TEMP_C ∨ t < ↑cfg.MIN_LIMITED_DISCHARGE_TEMP_C)
    (hn : s.faultState ≠ OVER_TEMPERATURE_CRITICAL) :
    monitorTemperature cfg t s =
      handleUnderTemperature cfg { s with currentBatteryTemperatureC := t } := by
  unfold monitorTemperature
  simp only []
  rw [if_neg ht, if_pos hu, if_pos hn]

theorem monitorTemperature_under_critical (cfg : Config) (t : FloatVal) (s : State)
    (ht : ¬ t > ↑cfg.MAX_SAFE_TEMP_C)
    (hu : t < ↑cfg.MIN_SAFE_CHARGE_TEMP_C ∨ t < ↑cfg.MIN_LIMITED_DISCHARGE_TEMP_C)
    (hc : s.faultState = OVER_TEMPERATURE_CRITICAL) :
    monitorTemperature cfg t s = ({ s with currentBatteryTemperatureC := t }, []) := by
  unfold monitorTemperature
  simp only []
  rw [if_neg ht, if_pos hu, if_neg (not_not.mpr hc)]

theorem monitorTemperature_else (cfg : Config) (t : FloatVal) (s : State)
    (ht : ¬ t > ↑cfg.MAX_SAFE_TEMP_C)
    (hu : ¬ (t < ↑cfg.MIN_SAFE_CHARGE_TEMP_C ∨ t < ↑cfg.MIN_LIMITED_DISCHARGE_TEMP_C))
    (hc : s.faultState ≠ OVER_TEMPERATURE_CRITICAL ∨ s.manualResetRequired = false) :
    monitorTemperature cfg t s =
      resetToNormalState { s with currentBatteryTemperatureC := t } := by
  unfold monitorTemperature
  simp only []
  rw [if_neg ht, if_neg hu, if_pos hc]

theorem monitorTemperature_else_latched (cfg : Config) (t : FloatVal) (s : State)
    (ht : ¬ t > ↑cfg.MAX_SAFE_TEMP_C)
    (hu : ¬ (t < ↑cfg.MIN_SAFE_CHARGE_TEMP_C ∨ t < ↑cfg.MIN_LIMITED_DISCHARGE_TEMP_C))
    (hc : ¬ (s.faultState ≠ OVER_TEMPERATURE_CRITICAL ∨ s.manualResetRequired = false)) :
    monitorTemperature cfg t s = ({ s with currentBatteryTemperatureC := t }, []) := by
  unfold monitorTemperature
  simp only []
  rw [if_neg ht, if_neg hu, if_neg hc]

theorem monitorTemperature_idem (cfg : Config) (t : FloatVal) (s : State) :
    monitorTemperature cfg t (monitorTemperature cfg t s).1 =
      ((monitorTemperature cfg t s).1, []) := by
  by_cases ht : t > ↑cfg.MAX_SAFE_TEMP_C
  · rw [monitorTemperature_of_gt cfg t s ht, monitorTemperature_of_gt cfg t _ ht,
      setTemp_eq_self _ t (handleOverTemperature_temp _)]
    exact handleOverTemperature_idem _
  · by_cases hu : t < ↑cfg.MIN_SAFE_CHARGE_TEMP_C ∨ t < ↑cfg.MIN_LIMITED_DISCHARGE_TEMP_C
    · by_cases hc : s.faultState = OVER_TEMPERATURE_CRITICAL
      · rw [monitorTemperature_under_critical cfg t s ht hu hc]
        exact monitorTemperature_under_critical cfg t
          { s with currentBatteryTemperatureC := t } ht hu hc
      · have hF := frame_handleUnderTemperature cfg { s with currentBatteryTemperatureC := t }
        rw [monitorTemperature_under cfg t s ht hu hc,
          monitorTemperature_under cfg t _ ht hu (hF.2.2.2.2 hc),
          setTemp_eq_self _ t hF.2.2.2.1]
        exact handleUnderTemperature_idem cfg _ hc
    · by_cases hc : s.faultState ≠ OVER_TEMPERATURE_CRITICAL ∨ s.manualResetRequired = false
      · have hF := frame_resetToNormalState { s with currentBatteryTemperatureC := t }
        have hc' : (resetToNormalState { s with currentBatteryTemperatureC := t }).1.faultState
              ≠ OVER_TEMPERATURE_CRITICAL ∨
            (resetToNormalState
              { s with currentBatteryTemperatureC := t }).1.manualResetRequired = false := by
          rcases hc with hc | hc
          · exact Or.inl (hF.2.2.2.2 hc)
          · exact Or.inr (hF.1.trans hc)
        rw [monitorTemperature_else cfg t s ht hu hc,
          monitorTemperature_else cfg t _ ht hu hc', setTemp_eq_self _ t hF.2.2.2.1]
        exact resetToNormalState_idem _
      · rw [monitorTemperature_else_latched cfg t s ht hu hc]
        exact monitorTemperature_else_latched cfg t
          { s with currentBatteryTemperatureC := t } ht hu hc

/-- C9: for every reachable state and every reading, a second `monitorTemperature` call
with the same reading leaves all nine fields as the first call left them and emits no
alert; the critical-entry alert pair is emitted on the transition into
`OVER_TEMPERATURE_CRITICAL`, and no monitoring call emits an alert while the state is
critical. -/
theorem C9_monitor_idempotent (cfg : Config) (s : State) (hs : Reachable cfg s) (t : FloatVal) :
    (monitorTemperature cfg t (monitorTemperature cfg t s).1).1 =
      (monitorTemperature cfg t s).1 ∧
    (monitorTemperature cfg t (monitorTemperature cfg t s).1).2 = [] ∧
    (t > ↑cfg.MAX_SAFE_TEMP_C → s.faultState ≠ OVER_TEMPERATURE_CRITICAL →
      (monitorTemperature cfg t s).2 = [Alert.driver msgCritical, Alert.vcu msgCritical]) ∧
    (s.faultState = OVER_TEMPERATURE_CRITICAL →
      ∀ t' : FloatVal, (monitorTemperature cfg t' s).2 = [] ∧
        (monitorTemperature cfg t' s).1.faultState = OVER_TEMPERATURE_CRITICAL) := by
  have hI := latchInv_of_reachable cfg s hs
  refine ⟨?_, ?_, fun ht hn => ?_, fun hc t' => ?_⟩
  · rw [monitorTemperature_idem]
  · rw [monitorTemperature_idem]
  · rw [monitorTemperature_of_gt cfg t s ht]
    unfold handleOverTemperature
    simp [hn]
  · rw [monitorTemperature_of_critical cfg t' s hc (hI.1.1 hc)]
    exact ⟨rfl, hc⟩

/-- C9 at a concrete input: the documented thresholds, a fresh supervisor, reading 65. -/
theorem C9_monitor_idempotent_witness :
    (monitorTemperature docCfg (.finite 65) (monitorTemperature docCfg (.finite 65) new).1).1 =
      (monitorTemperature docCfg (.finite 65) new).1 ∧
    (monitorTemperature docCfg (.finite 65) (monitorTemperature docCfg (.finite 65) new).1).2 = [] ∧
    (FloatVal.finite 65 > ↑docCfg.MAX_SAFE_TEMP_C →
      new.faultState ≠ OVER_TEMPERATURE_CRITICAL →
      (monitorTemperature docCfg (.finite 65) new).2 =
        [Alert.driver msgCritical, Alert.vcu msgCritical]) ∧
    (new.faultState = OVER_TEMPERATURE_CRITICAL →
      ∀ t' : FloatVal, (monitorTemperature docCfg t' new).2 = [] ∧
        (monitorTemperature docCfg t' new).1.faultState = OVER_TEMPERATURE_CRITICAL) :=
  C9_monitor_idempotent docCfg new Reachable.init (.finite 65)

/-- C10: in every state that is critical with a recorded temperature above
`MAX_SAFE_TEMP_C - 5`, `performManualReset` keeps the fault state, the reset latch, the
contactor and cooling flags, both inhibit flags, the stored limit and the recorded
temperature, emits exactly one alert, to the driver, and sets the alert message to the
denial text. -/
theorem C10_denied_reset (cfg : Config) (s : State)
    (hc : s.faultState = OVER_TEMPERATURE_CRITICAL)
    (ht : s.currentBatteryTemperatureC > ↑(cfg.MAX_SAFE_TEMP_C - 5)) :
    (performManualReset cfg s).1 = { s with alertMessage := msgResetDenied } ∧
    (performManualReset cfg s).1.faultState = s.faultState ∧
    (performManualReset cfg s).1.manualResetRequired = s.manualResetRequired ∧
    (performManualReset cfg s).1.contactorsOpen = s.contactorsOpen ∧
    (performManualReset cfg s).1.emergencyCoolingActive = s.emergencyCoolingActive ∧
    (performManualReset cfg s).1.chargingInhibited = s.chargingInhibited ∧
    (performManualReset cfg s).1.dischargingInhibited = s.dischargingInhibited ∧
    (performManualReset cfg s).1.dischargeCurrentLimit = s.dischargeCurrentLimit ∧
    (performManualReset cfg s).1.currentBatteryTemperatureC = s.currentBatteryTemperatureC ∧
    (performManualReset cfg s).2 = [Alert.driver msgResetDenied] ∧
    getAlertMessage (performManualReset cfg s).1 = msgResetDenied := by
  rw [performManualReset_denied cfg s hc (FloatVal.not_le_of_gt ht)]
  exact ⟨rfl, rfl, rfl, rfl, rfl, rfl, rfl, rfl, rfl, rfl, rfl⟩

/-- C10 at a concrete input: the documented thresholds, readings 65 then 56. -/
theorem C10_denied_reset_witness :
    (performManualReset docCfg (run docCfg [Op.monitor (.finite 65), Op.monitor (.finite 56)] new)).1 =
      { (run docCfg [Op.monitor (.finite 65), Op.monitor (.finite 56)] new) with
          alertMessage := msgResetDenied } ∧
    (performManualReset docCfg (run docCfg [Op.monitor (.finite 65), Op.monitor (.finite 56)] new)).1.faultState
      = (run docCfg [Op.monitor (.finite 65), Op.monitor (.finite 56)] new).faultState ∧
    (performManualReset docCfg
      (run docCfg [Op.monitor (.finite 65), Op.monitor (.finite 56)] new)).1.manualResetRequired
      = (run docCfg [Op.monitor (.finite 65), Op.monitor (.finite 56)] new).manualResetRequired ∧
    (performManualReset docCfg
      (run docCfg [Op.monitor (.finite 65), Op.monitor (.finite 56)] new)).1.contactorsOpen
      = (run docCfg [Op.monitor (.finite 65), Op.monitor (.finite 56)] new).contactorsOpen ∧
    (performManualReset docCfg
      (run docCfg [Op.monitor (.finite 65), Op.monitor (.finite 56)] new)).1.emergencyCoolingActive
      = (run docCfg [Op.monitor (.finite 65), Op.monitor (.finite 56)] new).emergencyCoolingActive ∧
    (performManualReset docCfg
      (run docCfg [Op.monitor (.finite 65), Op.monitor (.finite 56)] new)).1.chargingInhibited
      = (run docCfg [Op.monitor (.finite 65), Op.monitor (.finite 56)] new).chargingInhibited ∧
    (performManualReset docCfg
      (run docCfg [Op.monitor (.finite 65), Op.monitor (.finite 56)] new)).1.dischargingInhibited
      = (run docCfg [Op.monitor (.finite 65), Op.monitor (.finite 56)] new).dischargingInhibited ∧
    (performManualReset docCfg
      (run docCfg [Op.monitor (.finite 65), Op.monitor (.finite 56)] new)).1.dischargeCurrentLimit
      = (run docCfg [Op.monitor (.finite 65), Op.monitor (.finite 56)] new).dischargeCurrentLimit ∧
    (performManualReset docCfg
      (run docCfg [Op.monitor (.finite 65), Op.monitor (.finite 56)] new)).1.currentBatteryTemperatureC
      = (run docCfg [Op.monitor (.finite 65), Op.monitor (.finite 56)] new).currentBatteryTemperatureC ∧
    (performManualReset docCfg (run docCfg [Op.monitor (.finite 65), Op.monitor (.finite 56)] new)).2
      = [Alert.driver msgResetDenied] ∧
    getAlertMessage (performManualReset docCfg
      (run docCfg [Op.monitor (.finite 65), Op.monitor (.finite 56)] new)).1 = msgResetDenied :=
  C10_denied_reset docCfg (run docCfg [Op.monitor (.finite 65), Op.monitor (.finite 56)] new)
    (by decide) (by decide!)

/-! ## Flag invariants -/

theorem flagInv_handleOverTemperature (s : State) (h : FlagInv s) :
    FlagInv (handleOverTemperature s).1 := by
  unfold handleOverTemperature
  simp only []
  split_ifs
  · simp [FlagInv, inhibitDischarging, inhibitCharging, activateEmergencyCooling,
      openMainContactors]
  · exact h

theorem flagInv_handleUnderTemperatureCharge (cfg : Config) (s : State) (h : FlagInv s) :
    FlagInv (handleUnderTemperatureCharge cfg s).1 := by
  obtain ⟨t0, fs, msg, co, ec, ci, di, lim, mrr⟩ := s
  cases fs <;>
    simp [FlagInv, handleUnderTemperatureCharge, inhibitCharging] at h ⊢ <;>
    (try split_ifs) <;> simp_all

theorem flagInv_handleUnderTemperatureDischarge (cfg : Config) (s : State) (h : FlagInv s) :
    FlagInv (handleUnderTemperatureDischarge cfg s).1 := by
  obtain ⟨t0, fs, msg, co, ec, ci, di, lim, mrr⟩ := s
  cases fs <;>
    simp [FlagInv, handleUnderTemperatureDischarge, inhibitDischarging,
      limitDischargeCurrent] at h ⊢ <;>
    (try split_ifs) <;> simp_all

theorem flagInv_resetToNormalState (s : State) (hL : LatchInv s) (h : FlagInv s) :
    FlagInv (resetToNormalState s).1 := by
  rw [resetToNormalState_fst]
  split_ifs with hm
  · exact h
  · refine ⟨by simp, by simp, by simp, fun hco => ?_⟩
    have hc := h.2.2.2 hco
    exact absurd (hL.1.1 hc) hm

theorem flagInv_monitorTemperature (cfg : Config) (t : FloatVal) (s : State) (hL : LatchInv s)
    (h : FlagInv s) : FlagInv (monitorTemperature cfg t s).1 := by
  have h1 : FlagInv { s with currentBatteryTemperatureC := t } := h
  have hL1 : LatchInv { s with currentBatteryTemperatureC := t } := hL
  unfold monitorTemperature
  simp only []
  split_ifs
  · exact flagInv_handleOverTemperature _ h1
  · exact flagInv_handleUnderTemperatureDischarge _ _
      (flagInv_handleUnderTemperatureCharge _ _ h1)
  · exact h1
  · exact flagInv_resetToNormalState _ hL1 h1
  · exact h1

theorem latchInv_afterAuthorizedReset (s : State) : LatchInv (afterAuthorizedReset s) := by
  simp [LatchInv, afterAuthorizedReset]

theorem flagInv_afterAuthorizedReset (s : State) : FlagInv (afterAuthorizedReset s) := by
  simp [FlagInv, afterAuthorizedReset]

theorem manualResetRequired_of_not_critical (s : State) (hL : LatchInv s)
    (hn : s.faultState ≠ OVER_TEMPERATURE_CRITICAL) : s.manualResetRequired = false := by
  cases hm : s.manualResetRequired
  · rfl
  · exact absurd (hL.1.2 hm) hn

/-- With no reset pending `resetToNormalState` yields the explicit normal state. -/
theorem resetToNormalState_fst_of_not_critical (s : State) (hL : LatchInv s)
    (hn : s.faultState ≠ OVER_TEMPERATURE_CRITICAL) :
    (resetToNormalState s).1 =
      { s with faultState := NORMAL, alertMessage := "System Normal",
               chargingInhibited := false, dischargingInhibited := false,
               dischargeCurrentLimit := 1000 } := by
  rw [resetToNormalState_fst, if_neg]
  simp [manualResetRequired_of_not_critical s hL hn]

theorem flagInv_performManualReset (cfg : Config) (s : State)
    (h : FlagInv s) : FlagInv (performManualReset cfg s).1 := by
  by_cases hc : s.faultState = OVER_TEMPERATURE_CRITICAL
  · by_cases ht : s.currentBatteryTemperatureC ≤ ↑(cfg.MAX_SAFE_TEMP_C - 5)
    · rw [performManualReset_authorized cfg s hc ht]
      exact flagInv_monitorTemperature cfg _ _ (latchInv_afterAuthorizedReset s)
        (flagInv_afterAuthorizedReset s)
    · rw [performManualReset_denied cfg s hc ht]
      exact h
  · unfold performManualReset
    rw [if_neg hc]
    exact h

theorem flagInv_allowCharging (cfg : Config) (s : State) (hL : LatchInv s)
    (h : FlagInv s) : FlagInv (allowCharging cfg s).1 := by
  unfold allowCharging
  simp only []
  split_ifs with c1 c2
  · have hL1 : LatchInv { s with chargingInhibited := false } := by
      obtain ⟨t0, fs, msg, co, ec, ci, di, lim, mrr⟩ := s
      simp_all [LatchInv]
    have hn : ({ s with chargingInhibited := false } : State).faultState ≠
        OVER_TEMPERATURE_CRITICAL := c1.2
    apply flagInv_monitorTemperature cfg _ _ (latchInv_resetToNormalState _ hL1)
    rw [resetToNormalState_fst_of_not_critical _ hL1 hn]
    simp only [FlagInv]
    refine ⟨by simp, by simp, by simp, fun hco => ?_⟩
    exact absurd (h.2.2.2 hco) c1.2
  · obtain ⟨t0, fs, msg, co, ec, ci, di, lim, mrr⟩ := s
    simp_all [FlagInv]
  · exact h

theorem flagInv_allowFullDischarge (cfg : Config) (s : State) (hL : LatchInv s)
    (h : FlagInv s) : FlagInv (allowFullDischarge cfg s).1 := by
  have h1 : s.faultState ≠ OVER_TEMPERATURE_CRITICAL →
      FlagInv { s with dischargingInhibited := false, dischargeCurrentLimit := 1000 } := by
    intro _
    obtain ⟨t0, fs, msg, co, ec, ci, di, lim, mrr⟩ := s
    simp_all [FlagInv]
  have hL1 : s.faultState ≠ OVER_TEMPERATURE_CRITICAL →
      LatchInv { s with dischargingInhibited := false, dischargeCurrentLimit := 1000 } := by
    intro _
    obtain ⟨t0, fs, msg, co, ec, ci, di, lim, mrr⟩ := s
    simp_all [LatchInv]
  unfold allowFullDischarge
  simp only []
  split_ifs with c1 c2
  · exact flagInv_monitorTemperature cfg _ _ (latchInv_resetToNormalState _ (hL1 c1.2))
      (flagInv_resetToNormalState _ (hL1 c1.2) (h1 c1.2))
  · exact h1 c1.2
  · exact h

theorem flagInv_of_reachable (cfg : Config) (s : State) (hs : Reachable cfg s) :
    FlagInv s := by
  induction hs with
  | init => simp [FlagInv, new]
  | call op s hs ih =>
    have hL := latchInv_of_reachable cfg s hs
    cases op
    · exact flagInv_monitorTemperature cfg _ s hL ih
    · exact flagInv_performManualReset cfg s ih
    · exact flagInv_allowCharging cfg s hL ih
    · exact flagInv_allowFullDischarge cfg s hL ih

theorem coldInv_step (cfg : Config) (op : Op) (s : State) (hL : LatchInv s)
    (h : ColdInv s) : ColdInv (step cfg op s).1 := by
  cases op with
  | monitor t => exact (bandInv_monitorTemperature cfg t s h).1
  | reset =>
    by_cases hc : s.faultState = OVER_TEMPERATURE_CRITICAL
    · by_cases ht : s.currentBatteryTemperatureC ≤ ↑(cfg.MAX_SAFE_TEMP_C - 5)
      · simp only [step]
        rw [performManualReset_authorized cfg s hc ht]
        exact (bandInv_monitorTemperature cfg _ _ (by simp [ColdInv, afterAuthorizedReset])).1
      · simp only [step]
        rw [performManualReset_denied cfg s hc ht]
        exact h
    · simp only [step, performManualReset]
      rw [if_neg hc]
      exact h
  | allowCharge =>
    simp only [step, allowCharging]
    split_ifs
    · refine (bandInv_monitorTemperature cfg _ _ (coldInv_resetToNormalState _ ?_)).1
      exact h
    · exact h
    · exact h
  | allowDischarge =>
    simp only [step, allowFullDischarge]
    split_ifs with c1 c2
    · have hL1 : LatchInv
          { s with dischargingInhibited := false, dischargeCurrentLimit := 1000 } := by
        obtain ⟨t0, fs, msg, co, ec, ci, di, lim, mrr⟩ := s
        simp_all [LatchInv]
      refine (bandInv_monitorTemperature cfg _ _ ?_).1
      rw [resetToNormalState_fst_of_not_critical _ hL1 c1.2]
      simp [ColdInv]
    · simp only [not_or] at c2
      exact ⟨fun hf => absurd hf c2.1, fun hf => absurd hf c2.2⟩
    · exact h

theorem coldInv_of_reachable (cfg : Config) (s : State) (hs : Reachable cfg s) :
    ColdInv s := by
  induction hs with
  | init => simp [ColdInv, new]
  | call op s hs ih => exact coldInv_step cfg op s (latchInv_of_reachable cfg s hs) ih

theorem stateFlagInvariants_of_reachable (cfg : Config) (s : State)
    (hs : Reachable cfg s) : StateFlagInvariants s := by
  have hL := latchInv_of_reachable cfg s hs
  have hF := flagInv_of_reachable cfg s hs
  have hC := coldInv_of_reachable cfg s hs
  refine ⟨fun hc => (hL.2.1 hc).1, fun h => ?_, fun h => ?_⟩
  · rcases h with hc | hc
    · exact (hL.2.1 hc).2.2.1
    · exact hF.1 hc
  · rcases h with hc | hc
    · exact (hL.2.1 hc).2.2.2
    · exact hC.2 hc

/-- C11: in every state, `performManualReset` outside the critical state, `allowCharging`
below `MIN_SAFE_CHARGE_TEMP_C` or in the critical state, and `allowFullDischarge` below
`MIN_LIMITED_DISCHARGE_TEMP_C` or in the critical state return the state unchanged in all
nine fields and emit no alert. -/
theorem C11_silent_rejections (cfg : Config) (s : State) :
    (s.faultState ≠ OVER_TEMPERATURE_CRITICAL → performManualReset cfg s = (s, [])) ∧
    (s.currentBatteryTemperatureC < ↑cfg.MIN_SAFE_CHARGE_TEMP_C ∨
        s.faultState = OVER_TEMPERATURE_CRITICAL → allowCharging cfg s = (s, [])) ∧
    (s.currentBatteryTemperatureC < ↑cfg.MIN_LIMITED_DISCHARGE_TEMP_C ∨
        s.faultState = OVER_TEMPERATURE_CRITICAL → allowFullDischarge cfg s = (s, [])) := by
  refine ⟨fun hn => ?_, fun h => ?_, fun h => ?_⟩
  · unfold performManualReset
    rw [if_neg hn]
  · unfold allowCharging
    rw [if_neg]
    rintro ⟨h1, h2⟩
    rcases h with h | h
    · exact absurd h1 (FloatVal.not_ge_of_lt h)
    · exact h2 h
  · unfold allowFullDischarge
    rw [if_neg]
    rintro ⟨h1, h2⟩
    rcases h with h | h
    · exact absurd h1 (FloatVal.not_ge_of_lt h)
    · exact h2 h

/-- C11 at a concrete input: the documented thresholds and the charge-inhibit state
reached from a fresh supervisor by the reading -5. -/
theorem C11_silent_rejections_witness :
    performManualReset docCfg (run docCfg [Op.monitor (.finite (-5))] new) =
      (run docCfg [Op.monitor (.finite (-5))] new, []) ∧
    allowCharging docCfg (run docCfg [Op.monitor (.finite (-5))] new) =
      (run docCfg [Op.monitor (.finite (-5))] new, []) ∧
    allowFullDischarge docCfg (run docCfg [Op.monitor (.finite (-5))] new) =
      (run docCfg [Op.monitor (.finite (-5))] new, []) :=
  ⟨(C11_silent_rejections docCfg (run docCfg [Op.monitor (.finite (-5))] new)).1 (by decide),
   (C11_silent_rejections docCfg (run docCfg [Op.monitor (.finite (-5))] new)).2.1
     (Or.inl (by decide)),
   (C11_silent_rejections docCfg (run docCfg [Op.monitor (.finite (-5))] new)).2.2
     (Or.inl (by decide))⟩

/-- C12: in every reachable state the fault state is `OVER_TEMPERATURE_CRITICAL` exactly
when `manualResetRequired` is true. -/
theorem C12_latch_state_equivalence (cfg : Config) (s : State) (hs : Reachable cfg s) :
    s.faultState = OVER_TEMPERATURE_CRITICAL ↔ s.manualResetRequired = true :=
  (latchInv_of_reachable cfg s hs).1

/-- C12 at a concrete input: the state reached from a fresh supervisor by reading 65. -/
theorem C12_latch_state_equivalence_witness :
    (run docCfg [Op.monitor (.finite 65)] new).faultState = OVER_TEMPERATURE_CRITICAL ↔
      (run docCfg [Op.monitor (.finite 65)] new).manualResetRequired = true :=
  C12_latch_state_equivalence docCfg (run docCfg [Op.monitor (.finite 65)] new)
    (Reachable.call (Op.monitor (.finite 65)) new Reachable.init)

/-- C13: every reachable state satisfies the three state/flag implications (critical
implies contactors open; critical or charge-inhibit implies charging inhibited; critical
or discharge-inhibit implies discharging inhibited), and they hold again after each of
the four mutating operations. -/
theorem C13_state_flag_invariants (cfg : Config) (s : State) (hs : Reachable cfg s) :
    StateFlagInvariants s ∧
    (∀ t : FloatVal, StateFlagInvariants (monitorTemperature cfg t s).1) ∧
    StateFlagInvariants (performManualReset cfg s).1 ∧
    StateFlagInvariants (allowCharging cfg s).1 ∧
    StateFlagInvariants (allowFullDischarge cfg s).1 :=
  ⟨stateFlagInvariants_of_reachable cfg s hs,
   fun t => stateFlagInvariants_of_reachable cfg _ (Reachable.call (Op.monitor t) s hs),
   stateFlagInvariants_of_reachable cfg _ (Reachable.call Op.reset s hs),
   stateFlagInvariants_of_reachable cfg _ (Reachable.call Op.allowCharge s hs),
   stateFlagInvariants_of_reachable cfg _ (Reachable.call Op.allowDischarge s hs)⟩

/-- C13 at a concrete input: the charge-inhibit state reached by the reading -5. -/
theorem C13_state_flag_invariants_witness :
    StateFlagInvariants (run docCfg [Op.monitor (.finite (-5))] new) ∧
    (∀ t : FloatVal, StateFlagInvariants
      (monitorTemperature docCfg t (run docCfg [Op.monitor (.finite (-5))] new)).1) ∧
    StateFlagInvariants (performManualReset docCfg (run docCfg [Op.monitor (.finite (-5))] new)).1 ∧
    StateFlagInvariants (allowCharging docCfg (run docCfg [Op.monitor (.finite (-5))] new)).1 ∧
    StateFlagInvariants (allowFullDischarge docCfg (run docCfg [Op.monitor (.finite (-5))] new)).1 :=
  C13_state_flag_invariants docCfg (run docCfg [Op.monitor (.finite (-5))] new)
    (Reachable.call (Op.monitor (.finite (-5))) new Reachable.init)

/-- C14: in every reachable state an inhibited discharge has stored limit 0, the stored
limit lies in `[0, 1000]`, and so does `getAllowedDischargeCurrentLimit`. -/
theorem C14_current_limit_invariant (cfg : Config) (s : State) (hs : Reachable cfg s) :
    (s.dischargingInhibited = true → s.dischargeCurrentLimit = 0) ∧
    0 ≤ s.dischargeCurrentLimit ∧ s.dischargeCurrentLimit ≤ 1000 ∧
    0 ≤ getAllowedDischargeCurrentLimit cfg s ∧
    getAllowedDischargeCurrentLimit cfg s ≤ 1000 := by
  have hL := latchInv_of_reachable cfg s hs
  have hF := flagInv_of_reachable cfg s hs
  have hb : 0 ≤ s.dischargeCurrentLimit ∧ s.dischargeCurrentLimit ≤ 1000 := by
    cases hd : s.dischargingInhibited
    · rcases hF.2.2.1 hd with h | h <;> rw [h] <;> norm_num
    · rw [hL.2.2 hd]
      norm_num
  refine ⟨hL.2.2, hb.1, hb.2, ?_, ?_⟩
  · unfold getAllowedDischargeCurrentLimit
    split_ifs
    · exact le_refl 0
    · exact hb.1
    · norm_num
  · unfold getAllowedDischargeCurrentLimit
    split_ifs
    · norm_num
    · exact hb.2
    · exact le_refl 1000

/-- C14 at a concrete input: the limited state reached by the reading -10. -/
theorem C14_current_limit_invariant_witness :
    ((run docCfg [Op.monitor (.finite (-10))] new).dischargingInhibited = true →
      (run docCfg [Op.monitor (.finite (-10))] new).dischargeCurrentLimit = 0) ∧
    0 ≤ (run docCfg [Op.monitor (.finite (-10))] new).dischargeCurrentLimit ∧
    (run docCfg [Op.monitor (.finite (-10))] new).dischargeCurrentLimit ≤ 1000 ∧
    0 ≤ getAllowedDischargeCurrentLimit docCfg (run docCfg [Op.monitor (.finite (-10))] new) ∧
    getAllowedDischargeCurrentLimit docCfg (run docCfg [Op.monitor (.finite (-10))] new) ≤ 1000 :=
  C14_current_limit_invariant docCfg (run docCfg [Op.monitor (.finite (-10))] new)
    (Reachable.call (Op.monitor (.finite (-10))) new Reachable.init)

/-! ## The limit query -/

theorem limitedBandInv_step (cfg : Config) (op : Op) (s : State) (hL : LatchInv s)
    (hC : ColdInv s) (h : LimitedBandInv cfg s) : LimitedBandInv cfg (step cfg op s).1 := by
  cases op with
  | monitor t => exact (bandInv_monitorTemperature cfg t s hC).2.2
  | reset =>
    by_cases hc : s.faultState = OVER_TEMPERATURE_CRITICAL
    · by_cases ht : s.currentBatteryTemperatureC ≤ ↑(cfg.MAX_SAFE_TEMP_C - 5)
      · simp only [step]
        rw [performManualReset_authorized cfg s hc ht]
        exact (bandInv_monitorTemperature cfg _ _
          (by simp [ColdInv, afterAuthorizedReset])).2.2
      · simp only [step]
        rw [performManualReset_denied cfg s hc ht]
        exact h
    · simp only [step, performManualReset]
      rw [if_neg hc]
      exact h
  | allowCharge =>
    simp only [step, allowCharging]
    split_ifs
    · refine (bandInv_monitorTemperature cfg _ _ (coldInv_resetToNormalState _ ?_)).2.2
      exact hC
    · exact h
    · exact h
  | allowDischarge =>
    simp only [step, allowFullDischarge]
    split_ifs with c1 c2
    · have hL1 : LatchInv
          { s with dischargingInhibited := false, dischargeCurrentLimit := 1000 } := by
        obtain ⟨t0, fs, msg, co, ec, ci, di, lim, mrr⟩ := s
        simp_all [LatchInv]
      refine (bandInv_monitorTemperature cfg _ _ ?_).2.2
      rw [resetToNormalState_fst_of_not_critical _ hL1 c1.2]
      simp [ColdInv]
    · intro _ hlt
      exact absurd c1.1 (FloatVal.not_ge_of_lt hlt)
    · exact h

theorem limitedBandInv_of_reachable (cfg : Config)
    (h25 : cfg.MIN_LIMITED_DISCHARGE_TEMP_C ≤ 25) (s : State) (hs : Reachable cfg s) :
    LimitedBandInv cfg s := by
  induction hs with
  | init =>
    intro _ hlt
    simp only [new] at hlt
    have := (FloatVal.finite_lt_finite _ _).mp hlt
    linarith
  | call op s hs ih =>
    exact limitedBandInv_step cfg op s (latchInv_of_reachable cfg s hs)
      (coldInv_of_reachable cfg s hs) ih

/-- C15 as stated fails in two ways.  With thresholds -20 < 0 < 5 < 60 the readings -10
then 2 leave the state `UNDER_TEMPERATURE_DISCHARGE_LIMITED` at a temperature above the
limited band, and the query returns the stored 100, not 1000.  With thresholds
-20 < 30 < 40 < 60 a fresh supervisor records 25, inside the limited band, and the query
returns the stored 1000, not 100. -/
theorem C15_counterexample :
    (orderedCfg.MIN_SAFE_DISCHARGE_TEMP_C < orderedCfg.MIN_LIMITED_DISCHARGE_TEMP_C ∧
      orderedCfg.MIN_LIMITED_DISCHARGE_TEMP_C < orderedCfg.MIN_SAFE_CHARGE_TEMP_C ∧
      orderedCfg.MIN_SAFE_CHARGE_TEMP_C < orderedCfg.MAX_SAFE_TEMP_C ∧
      Reachable orderedCfg (run orderedCfg [Op.monitor (.finite (-10)), Op.monitor (.finite 2)] new) ∧
      (run orderedCfg [Op.monitor (.finite (-10)), Op.monitor (.finite 2)] new).faultState ≠
        OVER_TEMPERATURE_CRITICAL ∧
      (run orderedCfg [Op.monitor (.finite (-10)), Op.monitor (.finite 2)] new).dischargingInhibited = false ∧
      ↑orderedCfg.MIN_LIMITED_DISCHARGE_TEMP_C ≤
        (run orderedCfg [Op.monitor (.finite (-10)), Op.monitor (.finite 2)] new).currentBatteryTemperatureC ∧
      getAllowedDischargeCurrentLimit orderedCfg
        (run orderedCfg [Op.monitor (.finite (-10)), Op.monitor (.finite 2)] new) = 100 ∧
      getAllowedDischargeCurrentLimit orderedCfg
        (run orderedCfg [Op.monitor (.finite (-10)), Op.monitor (.finite 2)] new) ≠ 1000) ∧
    (lateLimitedCfg.MIN_SAFE_DISCHARGE_TEMP_C < lateLimitedCfg.MIN_LIMITED_DISCHARGE_TEMP_C ∧
      lateLimitedCfg.MIN_LIMITED_DISCHARGE_TEMP_C < lateLimitedCfg.MIN_SAFE_CHARGE_TEMP_C ∧
      lateLimitedCfg.MIN_SAFE_CHARGE_TEMP_C < lateLimitedCfg.MAX_SAFE_TEMP_C ∧
      Reachable lateLimitedCfg new ∧
      new.faultState ≠ OVER_TEMPERATURE_CRITICAL ∧
      new.dischargingInhibited = false ∧
      ↑lateLimitedCfg.MIN_SAFE_DISCHARGE_TEMP_C ≤ new.currentBatteryTemperatureC ∧
      new.currentBatteryTemperatureC < ↑lateLimitedCfg.MIN_LIMITED_DISCHARGE_TEMP_C ∧
      getAllowedDischargeCurrentLimit lateLimitedCfg new = 1000 ∧
      getAllowedDischargeCurrentLimit lateLimitedCfg new ≠ 100) :=
  ⟨⟨by decide, by decide, by decide,
      Reachable.call (Op.monitor (.finite 2)) _ (Reachable.call (Op.monitor (.finite (-10))) new Reachable.init),
      by decide, by decide, by decide, by decide, by decide⟩,
   ⟨by decide, by decide, by decide, Reachable.init, by decide, by decide, by decide,
      by decide, by decide, by decide⟩⟩

/-- C15, amended: for thresholds with `MIN_SAFE_DISCHARGE < MIN_LIMITED_DISCHARGE <
MIN_SAFE_CHARGE < MAX_SAFE` and `MIN_LIMITED_DISCHARGE <= 25`, in every reachable state
`getAllowedDischargeCurrentLimit` returns 0 if the state is critical, discharging is
inhibited or the recorded temperature is below `MIN_SAFE_DISCHARGE`; otherwise 100 if the
recorded temperature is in the limited band or the fault state is
`UNDER_TEMPERATURE_DISCHARGE_LIMITED`; and otherwise 1000. -/
theorem C15_limit_query_by_band (cfg : Config)
    (_h1 : cfg.MIN_SAFE_DISCHARGE_TEMP_C < cfg.MIN_LIMITED_DISCHARGE_TEMP_C)
    (_h2 : cfg.MIN_LIMITED_DISCHARGE_TEMP_C < cfg.MIN_SAFE_CHARGE_TEMP_C)
    (_h3 : cfg.MIN_SAFE_CHARGE_TEMP_C < cfg.MAX_SAFE_TEMP_C)
    (h25 : cfg.MIN_LIMITED_DISCHARGE_TEMP_C ≤ 25)
    (s : State) (hs : Reachable cfg s) :
    (s.faultState = OVER_TEMPERATURE_CRITICAL ∨ s.dischargingInhibited = true ∨
        s.currentBatteryTemperatureC < ↑cfg.MIN_SAFE_DISCHARGE_TEMP_C →
      getAllowedDischargeCurrentLimit cfg s = 0) ∧
    (¬ (s.faultState = OVER_TEMPERATURE_CRITICAL ∨ s.dischargingInhibited = true ∨
        s.currentBatteryTemperatureC < ↑cfg.MIN_SAFE_DISCHARGE_TEMP_C) →
      (s.currentBatteryTemperatureC < ↑cfg.MIN_LIMITED_DISCHARGE_TEMP_C ∨
          s.faultState = UNDER_TEMPERATURE_DISCHARGE_LIMITED →
        getAllowedDischargeCurrentLimit cfg s = 100) ∧
      (¬ (s.currentBatteryTemperatureC < ↑cfg.MIN_LIMITED_DISCHARGE_TEMP_C ∨
          s.faultState = UNDER_TEMPERATURE_DISCHARGE_LIMITED) →
        getAllowedDischargeCurrentLimit cfg s = 1000)) := by
  have hC := coldInv_of_reachable cfg s hs
  have hB := limitedBandInv_of_reachable cfg h25 s hs
  refine ⟨fun h0 => ?_, fun h0 => ⟨fun hb => ?_, fun hb => ?_⟩⟩
  · unfold getAllowedDischargeCurrentLimit
    rw [if_pos h0]
  · unfold getAllowedDischargeCurrentLimit
    rw [if_neg h0, if_pos (Or.symm hb)]
    simp only [not_or] at h0
    rcases hb with hb | hb
    · exact hB h0.1 hb (by simpa using h0.2.1)
    · exact hC.1 hb
  · unfold getAllowedDischargeCurrentLimit
    rw [if_neg h0, if_neg (fun h => hb (Or.symm h))]

/-- C15 (amended) at a concrete input: thresholds -20 < 0 < 5 < 60 and the limited state
reached by the reading -10. -/
theorem C15_limit_query_by_band_witness :
    getAllowedDischargeCurrentLimit orderedCfg (run orderedCfg [Op.monitor (.finite (-10))] new) = 100 :=
  ((C15_limit_query_by_band orderedCfg (by decide) (by decide) (by decide) (by decide)
    (run orderedCfg [Op.monitor (.finite (-10))] new)
    (Reachable.call (Op.monitor (.finite (-10))) new Reachable.init)).2 (by decide)).1
      (Or.inl (by decide))

/-! ## The charge band -/

theorem chargeBandInv_monitorTemperature (cfg : Config) (t : FloatVal) (s : State) :
    ChargeBandInv cfg (monitorTemperature cfg t s).1 := by
  intro hn hlt
  by_cases ht : t > ↑cfg.MAX_SAFE_TEMP_C
  · rw [monitorTemperature_of_gt cfg t s ht] at hn
    exact absurd (handleOverTemperature_faultState _) hn
  · have htemp : (monitorTemperature cfg t s).1.currentBatteryTemperatureC = t :=
      (frame_monitorTemperature cfg t s ht).2.2.2.1
    rw [htemp] at hlt
    by_cases hc : s.faultState = OVER_TEMPERATURE_CRITICAL
    · rw [monitorTemperature_under_critical cfg t s ht (Or.inl hlt) hc] at hn
      exact absurd hc hn
    · rw [monitorTemperature_under cfg t s ht (Or.inl hlt) hc]
      exact handleUnderTemperature_chargingInhibited cfg _ hc hlt

theorem chargeBandInv_step (cfg : Config) (op : Op) (s : State)
    (h : ChargeBandInv cfg s) : ChargeBandInv cfg (step cfg op s).1 := by
  cases op with
  | monitor t => exact chargeBandInv_monitorTemperature cfg t s
  | reset =>
    simp only [step, performManualReset]
    split_ifs
    · exact chargeBandInv_monitorTemperature cfg _ _
    · exact h
    · exact h
  | allowCharge =>
    simp only [step, allowCharging]
    split_ifs with c1 c2
    · exact chargeBandInv_monitorTemperature cfg _ _
    · intro _ hlt
      exact absurd c1.1 (FloatVal.not_ge_of_lt hlt)
    · exact h
  | allowDischarge =>
    simp only [step, allowFullDischarge]
    split_ifs
    · exact chargeBandInv_monitorTemperature cfg _ _
    · exact h
    · exact h

theorem chargeBandInv_of_reachable (cfg : Config)
    (h25 : cfg.MIN_SAFE_CHARGE_TEMP_C ≤ 25) (s : State) (hs : Reachable cfg s) :
    ChargeBandInv cfg s := by
  induction hs with
  | init =>
    intro _ hlt
    simp only [new] at hlt
    have := (FloatVal.finite_lt_finite _ _).mp hlt
    linarith
  | call op s _ ih => exact chargeBandInv_step cfg op s ih

/-- C16 as stated fails: with thresholds -20 < 0 < 30 < 60 a fresh supervisor is `NORMAL`
at 25, between the limited-discharge and the charge threshold, and `allowFullDischarge`
leaves it `NORMAL` with `chargingInhibited` false. -/
theorem C16_counterexample :
    lateChargeCfg.MIN_SAFE_DISCHARGE_TEMP_C < lateChargeCfg.MIN_LIMITED_DISCHARGE_TEMP_C ∧
    lateChargeCfg.MIN_LIMITED_DISCHARGE_TEMP_C < lateChargeCfg.MIN_SAFE_CHARGE_TEMP_C ∧
    lateChargeCfg.MIN_SAFE_CHARGE_TEMP_C < lateChargeCfg.MAX_SAFE_TEMP_C ∧
    Reachable lateChargeCfg new ∧
    new.faultState ≠ OVER_TEMPERATURE_CRITICAL ∧
    ↑lateChargeCfg.MIN_LIMITED_DISCHARGE_TEMP_C ≤ new.currentBatteryTemperatureC ∧
    new.currentBatteryTemperatureC < ↑lateChargeCfg.MIN_SAFE_CHARGE_TEMP_C ∧
    (allowFullDischarge lateChargeCfg new).1.faultState = NORMAL ∧
    (allowFullDischarge lateChargeCfg new).1.faultState ≠ UNDER_TEMPERATURE_CHARGE_INHIBIT ∧
    (allowFullDischarge lateChargeCfg new).1.chargingInhibited = false :=
  ⟨by decide, by decide, by decide, Reachable.init, by decide, by decide, by decide,
    by decide, by decide, by decide⟩

/-- C16, amended: for thresholds with `MIN_SAFE_DISCHARGE < MIN_LIMITED_DISCHARGE <
MIN_SAFE_CHARGE < MAX_SAFE` and `MIN_SAFE_CHARGE <= 25`, in every reachable non-critical
state whose recorded temperature lies in `[MIN_LIMITED_DISCHARGE, MIN_SAFE_CHARGE)`, after
`allowFullDischarge` discharging is not inhibited, the allowed current is 1000 and
`canDischarge` is true, while the fault state is `UNDER_TEMPERATURE_CHARGE_INHIBIT`,
charging is inhibited and `canCharge` is false. -/
theorem C16_allow_discharge_reasserts_charge_inhibit (cfg : Config)
    (h1 : cfg.MIN_SAFE_DISCHARGE_TEMP_C < cfg.MIN_LIMITED_DISCHARGE_TEMP_C)
    (_h2 : cfg.MIN_LIMITED_DISCHARGE_TEMP_C < cfg.MIN_SAFE_CHARGE_TEMP_C)
    (h3 : cfg.MIN_SAFE_CHARGE_TEMP_C < cfg.MAX_SAFE_TEMP_C)
    (h25 : cfg.MIN_SAFE_CHARGE_TEMP_C ≤ 25)
    (s : State) (hs : Reachable cfg s)
    (hn : s.faultState ≠ OVER_TEMPERATURE_CRITICAL)
    (hge : ↑cfg.MIN_LIMITED_DISCHARGE_TEMP_C ≤ s.currentBatteryTemperatureC)
    (hlt : s.currentBatteryTemperatureC < ↑cfg.MIN_SAFE_CHARGE_TEMP_C) :
    (allowFullDischarge cfg s).1.dischargingInhibited = false ∧
    getAllowedDischargeCurrentLimit cfg (allowFullDischarge cfg s).1 = 1000 ∧
    canDischarge cfg (allowFullDischarge cfg s).1 = true ∧
    (allowFullDischarge cfg s).1.faultState = UNDER_TEMPERATURE_CHARGE_INHIBIT ∧
    (allowFullDischarge cfg s).1.chargingInhibited = true ∧
    canCharge cfg (allowFullDischarge cfg s).1 = false := by
  have hL := latchInv_of_reachable cfg s hs
  have hF := flagInv_of_reachable cfg s hs
  have hci := chargeBandInv_of_reachable cfg h25 s hs hn hlt
  have hm := manualResetRequired_of_not_critical s hL hn
  have hnn : s.faultState ≠ NORMAL := by
    intro hno
    rw [(hF.2.1 hno).1] at hci
    exact absurd hci (by decide)
  have c0 : ¬ ↑cfg.MAX_SAFE_TEMP_C < s.currentBatteryTemperatureC := by
    intro hgt
    have := FloatVal.lt_of_gt_of_lt hgt hlt
    linarith
  have c2 : ¬ s.currentBatteryTemperatureC < ↑cfg.MIN_LIMITED_DISCHARGE_TEMP_C :=
    FloatVal.not_lt_of_ge hge
  have c3 : ¬ s.currentBatteryTemperatureC < ↑cfg.MIN_SAFE_DISCHARGE_TEMP_C :=
    FloatVal.not_lt_of_ge (FloatVal.ge_of_ge_of_le hge (le_of_lt h1))
  obtain ⟨T, fs, msg, co, ec, ci, di, lim, mrr⟩ := s
  simp only at hn hge hlt hci hm hnn c0 c2 c3
  subst hci hm
  cases fs <;>
    simp [allowFullDischarge, resetToNormalState, monitorTemperature, handleUnderTemperature,
      handleUnderTemperatureCharge, handleUnderTemperatureDischarge, inhibitCharging,
      canCharge, canDischarge, getAllowedDischargeCurrentLimit,
      hge, hlt, c0, c2, c3] at hn hnn ⊢

/-- C16 (amended) at a concrete input: thresholds -20 < 0 < 5 < 60 and the limited state
warmed to 2 (readings -10 then 2). -/
theorem C16_allow_discharge_reasserts_charge_inhibit_witness :
    (allowFullDischarge orderedCfg
      (run orderedCfg [Op.monitor (.finite (-10)), Op.monitor (.finite 2)] new)).1.dischargingInhibited = false ∧
    getAllowedDischargeCurrentLimit orderedCfg (allowFullDischarge orderedCfg
      (run orderedCfg [Op.monitor (.finite (-10)), Op.monitor (.finite 2)] new)).1 = 1000 ∧
    canDischarge orderedCfg (allowFullDischarge orderedCfg
      (run orderedCfg [Op.monitor (.finite (-10)), Op.monitor (.finite 2)] new)).1 = true ∧
    (allowFullDischarge orderedCfg
      (run orderedCfg [Op.monitor (.finite (-10)), Op.monitor (.finite 2)] new)).1.faultState =
        UNDER_TEMPERATURE_CHARGE_INHIBIT ∧
    (allowFullDischarge orderedCfg
      (run orderedCfg [Op.monitor (.finite (-10)), Op.monitor (.finite 2)] new)).1.chargingInhibited = true ∧
    canCharge orderedCfg (allowFullDischarge orderedCfg
      (run orderedCfg [Op.monitor (.finite (-10)), Op.monitor (.finite 2)] new)).1 = false :=
  C16_allow_discharge_reasserts_charge_inhibit orderedCfg (by decide) (by decide)
    (by decide) (by decide) (run orderedCfg [Op.monitor (.finite (-10)), Op.monitor (.finite 2)] new)
    (Reachable.call (Op.monitor (.finite 2)) _ (Reachable.call (Op.monitor (.finite (-10))) new Reachable.init))
    (by decide) (by decide) (by decide)

/-! ## The end-to-end scenario -/

theorem monitorTemperature_new_hot (cfg : Config) (hot : FloatVal)
    (hhot : hot > ↑cfg.MAX_SAFE_TEMP_C) :
    (monitorTemperature cfg hot new).1 = criticalAt hot := by
  rw [monitorTemperature_of_gt cfg hot new hhot]
  rfl

theorem monitorTemperature_criticalAt (cfg : Config) (t ok : FloatVal) :
    (monitorTemperature cfg ok (criticalAt t)).1 = criticalAt ok := by
  rw [monitorTemperature_of_critical cfg ok (criticalAt t) rfl rfl]
  rfl

theorem performManualReset_criticalAt (cfg : Config)
    (h2 : cfg.MIN_LIMITED_DISCHARGE_TEMP_C ≤ cfg.MIN_SAFE_CHARGE_TEMP_C) (ok : FloatVal)
    (hok1 : ↑cfg.MIN_SAFE_CHARGE_TEMP_C ≤ ok) (hok2 : ok ≤ ↑(cfg.MAX_SAFE_TEMP_C - 5)) :
    (performManualReset cfg (criticalAt ok)).1 = recoveredAt ok := by
  rw [performManualReset_authorized cfg (criticalAt ok) rfl hok2]
  have hmax : ok ≤ ↑cfg.MAX_SAFE_TEMP_C := FloatVal.le_of_le_of_le hok2 (by linarith)
  have hn := monitorTemperature_nominal cfg h2 (afterAuthorizedReset (criticalAt ok)) rfl ok
    hok1 hmax
  have hT : (criticalAt ok).currentBatteryTemperatureC = ok := rfl
  rw [hT, hn]
  rfl

theorem monitorTemperature_recoveredAt_cold (cfg : Config) (ok cold : FloatVal)
    (hmax : ¬ cold > ↑cfg.MAX_SAFE_TEMP_C)
    (hch : cold < ↑cfg.MIN_SAFE_CHARGE_TEMP_C)
    (hcold : cold < ↑cfg.MIN_SAFE_DISCHARGE_TEMP_C) :
    (monitorTemperature cfg cold (recoveredAt ok)).1 =
      { recoveredAt ok with
          currentBatteryTemperatureC := cold
          faultState := UNDER_TEMPERATURE_DISCHARGE_INHIBIT
          alertMessage := msgDischargeInhibit
          chargingInhibited := true
          dischargingInhibited := true
          dischargeCurrentLimit := 0 } := by
  rw [monitorTemperature_under cfg cold (recoveredAt ok) hmax (Or.inl hch)
    (by simp [recoveredAt])]
  simp [recoveredAt, handleUnderTemperature, handleUnderTemperatureCharge,
    handleUnderTemperatureDischarge, inhibitCharging, inhibitDischarging, hch, hcold]

/-- C17: for thresholds with `MIN_SAFE_DISCHARGE < MIN_LIMITED_DISCHARGE < MIN_SAFE_CHARGE
< MAX_SAFE - 5`, readings `hot > MAX_SAFE`, `ok` in `[MIN_SAFE_CHARGE, MAX_SAFE - 5]` and
`cold < MIN_SAFE_DISCHARGE`, a fresh supervisor is `NORMAL` at 25; after
`monitorTemperature(hot)` it is critical with contactors open and both inhibits set;
after `monitorTemperature(ok)` it is still critical; after `performManualReset` it is
`NORMAL` with contactors closed; after `monitorTemperature(cold)` it is in
`UNDER_TEMPERATURE_DISCHARGE_INHIBIT` with `canCharge` false and allowed current 0. -/
theorem C17_end_to_end_scenario (cfg : Config)
    (h1 : cfg.MIN_SAFE_DISCHARGE_TEMP_C < cfg.MIN_LIMITED_DISCHARGE_TEMP_C)
    (h2 : cfg.MIN_LIMITED_DISCHARGE_TEMP_C < cfg.MIN_SAFE_CHARGE_TEMP_C)
    (h3 : cfg.MIN_SAFE_CHARGE_TEMP_C < cfg.MAX_SAFE_TEMP_C - 5)
    (hot ok cold : FloatVal) (hhot : hot > ↑cfg.MAX_SAFE_TEMP_C)
    (hok1 : ↑cfg.MIN_SAFE_CHARGE_TEMP_C ≤ ok) (hok2 : ok ≤ ↑(cfg.MAX_SAFE_TEMP_C - 5))
    (hcold : cold < ↑cfg.MIN_SAFE_DISCHARGE_TEMP_C) :
    (new.faultState = NORMAL ∧ new.currentBatteryTemperatureC = FloatVal.finite 25) ∧
    ((run cfg [Op.monitor hot] new).faultState = OVER_TEMPERATURE_CRITICAL ∧
      (run cfg [Op.monitor hot] new).contactorsOpen = true ∧
      (run cfg [Op.monitor hot] new).chargingInhibited = true ∧
      (run cfg [Op.monitor hot] new).dischargingInhibited = true) ∧
    (run cfg [Op.monitor hot, Op.monitor ok] new).faultState = OVER_TEMPERATURE_CRITICAL ∧
    ((run cfg [Op.monitor hot, Op.monitor ok, Op.reset] new).faultState = NORMAL ∧
      (run cfg [Op.monitor hot, Op.monitor ok, Op.reset] new).contactorsOpen = false) ∧
    ((run cfg [Op.monitor hot, Op.monitor ok, Op.reset, Op.monitor cold] new).faultState =
        UNDER_TEMPERATURE_DISCHARGE_INHIBIT ∧
      canCharge cfg
        (run cfg [Op.monitor hot, Op.monitor ok, Op.reset, Op.monitor cold] new) = false ∧
      getAllowedDischargeCurrentLimit cfg
        (run cfg [Op.monitor hot, Op.monitor ok, Op.reset, Op.monitor cold] new) = 0) := by
  have hch : cold < ↑cfg.MIN_SAFE_CHARGE_TEMP_C :=
    FloatVal.lt_of_lt_of_le hcold (le_of_lt (lt_trans h1 h2))
  have hmax : ¬ cold > ↑cfg.MAX_SAFE_TEMP_C := by
    intro hgt
    have := FloatVal.lt_of_gt_of_lt hgt hcold
    linarith
  have e1 := monitorTemperature_new_hot cfg hot hhot
  have e2 := monitorTemperature_criticalAt cfg hot ok
  have e3 := performManualReset_criticalAt cfg (le_of_lt h2) ok hok1 hok2
  have e4 := monitorTemperature_recoveredAt_cold cfg ok cold hmax hch hcold
  simp only [run, step, e1, e2, e3, e4]
  simp [criticalAt, recoveredAt, new, canCharge, getAllowedDischargeCurrentLimit, hch]

/-- C17 at a concrete input: thresholds -20 < 0 < 5 < 55, hot = 65, ok = 25, cold = -25. -/
theorem C17_end_to_end_scenario_witness :
    (new.faultState = NORMAL ∧ new.currentBatteryTemperatureC = FloatVal.finite 25) ∧
    ((run orderedCfg [Op.monitor (.finite 65)] new).faultState = OVER_TEMPERATURE_CRITICAL ∧
      (run orderedCfg [Op.monitor (.finite 65)] new).contactorsOpen = true ∧
      (run orderedCfg [Op.monitor (.finite 65)] new).chargingInhibited = true ∧
      (run orderedCfg [Op.monitor (.finite 65)] new).dischargingInhibited = true) ∧
    (run orderedCfg [Op.monitor (.finite 65), Op.monitor (.finite 25)] new).faultState =
      OVER_TEMPERATURE_CRITICAL ∧
    ((run orderedCfg [Op.monitor (.finite 65), Op.monitor (.finite 25), Op.reset] new).faultState = NORMAL ∧
      (run orderedCfg [Op.monitor (.finite 65), Op.monitor (.finite 25), Op.reset] new).contactorsOpen = false) ∧
    ((run orderedCfg
        [Op.monitor (.finite 65), Op.monitor (.finite 25), Op.reset, Op.monitor (.finite (-25))] new).faultState =
        UNDER_TEMPERATURE_DISCHARGE_INHIBIT ∧
      canCharge orderedCfg (run orderedCfg
        [Op.monitor (.finite 65), Op.monitor (.finite 25), Op.reset, Op.monitor (.finite (-25))] new) = false ∧
      getAllowedDischargeCurrentLimit orderedCfg (run orderedCfg
        [Op.monitor (.finite 65), Op.monitor (.finite 25), Op.reset, Op.monitor (.finite (-25))] new) = 0) :=
  C17_end_to_end_scenario orderedCfg (by decide) (by decide) (by decide!)
    (.finite 65) (.finite 25) (.finite (-25)) (by decide) (by decide) (by decide!) (by decide)

/-! ## The nominal band -/

theorem nominalInv_monitorTemperature (cfg : Config)
    (hcfg : cfg.MIN_LIMITED_DISCHARGE_TEMP_C ≤ cfg.MIN_SAFE_CHARGE_TEMP_C)
    (t : FloatVal) (s : State) (hL : LatchInv s) :
    NominalInv cfg (monitorTemperature cfg t s).1 := by
  intro hn hge
  by_cases ht : t > ↑cfg.MAX_SAFE_TEMP_C
  · rw [monitorTemperature_of_gt cfg t s ht] at hn
    exact absurd (handleOverTemperature_faultState _) hn
  · have htemp : (monitorTemperature cfg t s).1.currentBatteryTemperatureC = t :=
      (frame_monitorTemperature cfg t s ht).2.2.2.1
    rw [htemp] at hge
    have hu : ¬ (t < ↑cfg.MIN_SAFE_CHARGE_TEMP_C ∨ t < ↑cfg.MIN_LIMITED_DISCHARGE_TEMP_C) := by
      rintro (h | h)
      · exact absurd hge (FloatVal.not_ge_of_lt h)
      · exact absurd (FloatVal.ge_of_ge_of_le hge hcfg) (FloatVal.not_ge_of_lt h)
    by_cases hc : s.faultState = OVER_TEMPERATURE_CRITICAL
    · have hm : s.manualResetRequired = true := hL.1.1 hc
      have hcond : ¬ (s.faultState ≠ OVER_TEMPERATURE_CRITICAL ∨
          s.manualResetRequired = false) := by
        rintro (h | h)
        · exact h hc
        · rw [hm] at h
          exact absurd h (by decide)
      rw [monitorTemperature_else_latched cfg t s ht hu hcond] at hn
      exact absurd hc hn
    · have hL1 : LatchInv { s with currentBatteryTemperatureC := t } := hL
      rw [monitorTemperature_else cfg t s ht hu (Or.inl hc),
        resetToNormalState_fst_of_not_critical _ hL1 hc]

theorem nominalInv_step (cfg : Config)
    (hcfg : cfg.MIN_LIMITED_DISCHARGE_TEMP_C ≤ cfg.MIN_SAFE_CHARGE_TEMP_C)
    (op : Op) (s : State) (hL : LatchInv s) (h : NominalInv cfg s) :
    NominalInv cfg (step cfg op s).1 := by
  cases op with
  | monitor t => exact nominalInv_monitorTemperature cfg hcfg t s hL
  | reset =>
    by_cases hc : s.faultState = OVER_TEMPERATURE_CRITICAL
    · by_cases ht : s.currentBatteryTemperatureC ≤ ↑(cfg.MAX_SAFE_TEMP_C - 5)
      · simp only [step]
        rw [performManualReset_authorized cfg s hc ht]
        exact nominalInv_monitorTemperature cfg hcfg _ _ (latchInv_afterAuthorizedReset s)
      · simp only [step]
        rw [performManualReset_denied cfg s hc ht]
        exact h
    · simp only [step, performManualReset]
      rw [if_neg hc]
      exact h
  | allowCharge =>
    simp only [step, allowCharging]
    split_ifs with c1 c2
    · have hL1 : LatchInv { s with chargingInhibited := false } := by
        obtain ⟨t0, fs, msg, co, ec, ci, di, lim, mrr⟩ := s
        simp_all [LatchInv]
      exact nominalInv_monitorTemperature cfg hcfg _ _ (latchInv_resetToNormalState _ hL1)
    · exact h
    · exact h
  | allowDischarge =>
    simp only [step, allowFullDischarge]
    split_ifs with c1 c2
    · have hL1 : LatchInv
          { s with dischargingInhibited := false, dischargeCurrentLimit := 1000 } := by
        obtain ⟨t0, fs, msg, co, ec, ci, di, lim, mrr⟩ := s
        simp_all [LatchInv]
      exact nominalInv_monitorTemperature cfg hcfg _ _ (latchInv_resetToNormalState _ hL1)
    · exact h
    · exact h

theorem nominalInv_of_reachable (cfg : Config)
    (hcfg : cfg.MIN_LIMITED_DISCHARGE_TEMP_C ≤ cfg.MIN_SAFE_CHARGE_TEMP_C)
    (s : State) (hs : Reachable cfg s) : NominalInv cfg s := by
  induction hs with
  | init => intro _ _; rfl
  | call op s hs ih => exact nominalInv_step cfg hcfg op s (latchInv_of_reachable cfg s hs) ih

/-- C18: for thresholds with `MIN_LIMITED_DISCHARGE <= MIN_SAFE_CHARGE <= 25 <= MAX_SAFE`,
in every reachable state `allowCharging` returns the state unchanged in all nine fields
and emits no alert; every reachable non-critical state whose recorded temperature is at
least `MIN_SAFE_CHARGE` is already `NORMAL` with `chargingInhibited` false. -/
theorem C18_allow_charging_changes_nothing (cfg : Config)
    (h1 : cfg.MIN_LIMITED_DISCHARGE_TEMP_C ≤ cfg.MIN_SAFE_CHARGE_TEMP_C)
    (_h2 : cfg.MIN_SAFE_CHARGE_TEMP_C ≤ 25) (_h3 : 25 ≤ cfg.MAX_SAFE_TEMP_C)
    (s : State) (hs : Reachable cfg s) :
    allowCharging cfg s = (s, []) ∧
    (s.faultState ≠ OVER_TEMPERATURE_CRITICAL →
      ↑cfg.MIN_SAFE_CHARGE_TEMP_C ≤ s.currentBatteryTemperatureC →
      s.faultState = NORMAL ∧ s.chargingInhibited = false) := by
  have hN := nominalInv_of_reachable cfg h1 s hs
  have hF := flagInv_of_reachable cfg s hs
  have key : s.faultState ≠ OVER_TEMPERATURE_CRITICAL →
      ↑cfg.MIN_SAFE_CHARGE_TEMP_C ≤ s.currentBatteryTemperatureC →
      s.faultState = NORMAL ∧ s.chargingInhibited = false :=
    fun hn hge => ⟨hN hn hge, (hF.2.1 (hN hn hge)).1⟩
  refine ⟨?_, key⟩
  unfold allowCharging
  simp only []
  split_ifs with c1 c2
  · rw [(key c1.2 c1.1).1] at c2
    exact absurd c2 (by decide)
  · have hci := (key c1.2 c1.1).2
    obtain ⟨t0, fs, msg, co, ec, ci, di, lim, mrr⟩ := s
    simp only at hci
    subst hci
    rfl
  · rfl

/-- C18 at a concrete input: the documented thresholds and the state reached by the
readings -5 then 10. -/
theorem C18_allow_charging_changes_nothing_witness :
    allowCharging docCfg (run docCfg [Op.monitor (.finite (-5)), Op.monitor (.finite 10)] new) =
      (run docCfg [Op.monitor (.finite (-5)), Op.monitor (.finite 10)] new, []) ∧
    ((run docCfg [Op.monitor (.finite (-5)), Op.monitor (.finite 10)] new).faultState ≠
        OVER_TEMPERATURE_CRITICAL →
      ↑docCfg.MIN_SAFE_CHARGE_TEMP_C ≤
        (run docCfg [Op.monitor (.finite (-5)), Op.monitor (.finite 10)] new).currentBatteryTemperatureC →
      (run docCfg [Op.monitor (.finite (-5)), Op.monitor (.finite 10)] new).faultState = NORMAL ∧
        (run docCfg [Op.monitor (.finite (-5)), Op.monitor (.finite 10)] new).chargingInhibited = false) :=
  C18_allow_charging_changes_nothing docCfg (by decide) (by decide) (by decide)
    (run docCfg [Op.monitor (.finite (-5)), Op.monitor (.finite 10)] new)
    (Reachable.call (Op.monitor (.finite 10)) _ (Reachable.call (Op.monitor (.finite (-5))) new Reachable.init))

/-- C19: for thresholds with `MIN_SAFE_DISCHARGE < MIN_LIMITED_DISCHARGE`, in every
reachable state `canDischarge` is true exactly when `getAllowedDischargeCurrentLimit` is
positive. -/
theorem C19_discharge_queries_agree (cfg : Config)
    (_h : cfg.MIN_SAFE_DISCHARGE_TEMP_C < cfg.MIN_LIMITED_DISCHARGE_TEMP_C)
    (s : State) (hs : Reachable cfg s) :
    canDischarge cfg s = true ↔ getAllowedDischargeCurrentLimit cfg s > 0 := by
  have hF := flagInv_of_reachable cfg s hs
  unfold canDischarge getAllowedDischargeCurrentLimit
  by_cases hc : s.faultState = OVER_TEMPERATURE_CRITICAL
  · simp [hc]
  · by_cases ht : s.currentBatteryTemperatureC < ↑cfg.MIN_SAFE_DISCHARGE_TEMP_C
    · simp [hc, ht]
    · by_cases hd : s.dischargingInhibited = true
      · simp [hc, ht, hd]
      · have hd' : s.dischargingInhibited = false := by simpa using hd
        have hpos : s.dischargeCurrentLimit > 0 := by
          rcases hF.2.2.1 hd' with h | h <;> rw [h] <;> norm_num
        have h0 : ¬ (s.faultState = OVER_TEMPERATURE_CRITICAL ∨
            s.dischargingInhibited = true ∨
            s.currentBatteryTemperatureC < ↑cfg.MIN_SAFE_DISCHARGE_TEMP_C) := by
          simp [hc, hd', ht]
        rw [if_neg hc, if_neg ht, if_neg h0]
        constructor
        · intro _
          split_ifs
          · exact hpos
          · norm_num
        · intro _
          simp [hd']

/-- C19 at a concrete input: the limited state reached by the reading -10. -/
theorem C19_discharge_queries_agree_witness :
    canDischarge docCfg (run docCfg [Op.monitor (.finite (-10))] new) = true ↔
      getAllowedDischargeCurrentLimit docCfg (run docCfg [Op.monitor (.finite (-10))] new) > 0 :=
  C19_discharge_queries_agree docCfg (by decide) (run docCfg [Op.monitor (.finite (-10))] new)
    (Reachable.call (Op.monitor (.finite (-10))) new Reachable.init)

/-! ## Contactors and cooling -/

theorem handleOverTemperature_emergencyCooling (s : State)
    (h : s.emergencyCoolingActive = true) :
    (handleOverTemperature s).1.emergencyCoolingActive = true := by
  unfold handleOverTemperature
  simp only []
  split_ifs
  · rfl
  · exact h

theorem monitorTemperature_emergencyCooling (cfg : Config) (t : FloatVal) (s : State)
    (h : s.emergencyCoolingActive = true) :
    (monitorTemperature cfg t s).1.emergencyCoolingActive = true := by
  by_cases ht : t > ↑cfg.MAX_SAFE_TEMP_C
  · rw [monitorTemperature_of_gt cfg t s ht]
    exact handleOverTemperature_emergencyCooling _ h
  · exact (frame_monitorTemperature cfg t s ht).2.2.1.trans h

theorem step_emergencyCooling (cfg : Config) (op : Op) (s : State)
    (h : s.emergencyCoolingActive = true) :
    (step cfg op s).1.emergencyCoolingActive = true := by
  cases op with
  | monitor t => exact monitorTemperature_emergencyCooling cfg t s h
  | reset =>
    simp only [step, performManualReset]
    split_ifs
    · apply monitorTemperature_emergencyCooling
      exact (frame_resetToNormalState _).2.2.1.trans h
    · exact h
    · exact h
  | allowCharge =>
    simp only [step, allowCharging]
    split_ifs
    · apply monitorTemperature_emergencyCooling
      exact (frame_resetToNormalState _).2.2.1.trans h
    · exact h
    · exact h
  | allowDischarge =>
    simp only [step, allowFullDischarge]
    split_ifs
    · apply monitorTemperature_emergencyCooling
      exact (frame_resetToNormalState _).2.2.1.trans h
    · exact h
    · exact h

/-- C20: in every reachable state open contactors imply the fault state
`OVER_TEMPERATURE_CRITICAL`, and once `emergencyCoolingActive` is true it stays true
after `monitorTemperature`, `performManualReset` (an authorised reset included),
`allowCharging` and `allowFullDischarge`. -/
theorem C20_contactors_only_in_critical (cfg : Config) (s : State)
    (hs : Reachable cfg s) :
    (s.contactorsOpen = true → s.faultState = OVER_TEMPERATURE_CRITICAL) ∧
    (s.emergencyCoolingActive = true →
      (∀ t : FloatVal, (monitorTemperature cfg t s).1.emergencyCoolingActive = true) ∧
      (performManualReset cfg s).1.emergencyCoolingActive = true ∧
      (allowCharging cfg s).1.emergencyCoolingActive = true ∧
      (allowFullDischarge cfg s).1.emergencyCoolingActive = true) :=
  ⟨(flagInv_of_reachable cfg s hs).2.2.2,
   fun h => ⟨fun t => step_emergencyCooling cfg (Op.monitor t) s h,
     step_emergencyCooling cfg Op.reset s h,
     step_emergencyCooling cfg Op.allowCharge s h,
     step_emergencyCooling cfg Op.allowDischarge s h⟩⟩

/-- C20 at a concrete input: the critical state cooled to 55 (readings 65 then 55), where
the next `performManualReset` is authorised. -/
theorem C20_contactors_only_in_critical_witness :
    ((run docCfg [Op.monitor (.finite 65), Op.monitor (.finite 55)] new).contactorsOpen = true →
      (run docCfg [Op.monitor (.finite 65), Op.monitor (.finite 55)] new).faultState =
        OVER_TEMPERATURE_CRITICAL) ∧
    ((∀ t : FloatVal, (monitorTemperature docCfg t
        (run docCfg [Op.monitor (.finite 65), Op.monitor (.finite 55)] new)).1.emergencyCoolingActive = true) ∧
      (performManualReset docCfg
        (run docCfg [Op.monitor (.finite 65), Op.monitor (.finite 55)] new)).1.emergencyCoolingActive = true ∧
      (allowCharging docCfg
        (run docCfg [Op.monitor (.finite 65), Op.monitor (.finite 55)] new)).1.emergencyCoolingActive = true ∧
      (allowFullDischarge docCfg
        (run docCfg [Op.monitor (.finite 65), Op.monitor (.finite 55)] new)).1.emergencyCoolingActive = true) :=
  ⟨(C20_contactors_only_in_critical docCfg (run docCfg [Op.monitor (.finite 65), Op.monitor (.finite 55)] new)
      (Reachable.call (Op.monitor (.finite 55)) _
        (Reachable.call (Op.monitor (.finite 65)) new Reachable.init))).1,
   (C20_contactors_only_in_critical docCfg (run docCfg [Op.monitor (.finite 65), Op.monitor (.finite 55)] new)
      (Reachable.call (Op.monitor (.finite 55)) _
        (Reachable.call (Op.monitor (.finite 65)) new Reachable.init))).2 (by decide)⟩

end ThermalBMS
